import Mathlib

/-!
Verification of the TCP transport of iota-transport-tcp against its
natural-language specification.

The development shallowly embeds the current tcp-transport.ts (the variant
with the outbound handshake write, the gatewayCanSendTo permission check in
send, and the needsReconnect bookkeeping).  Sockets are modelled as records
carrying their local and remote address and the list of buffers passed to
socket.write; asynchronous outcomes (connect success or failure, the first
inbound socket event, server close success) are explicit parameters of the
embedded operations.  The state mutations of each operation follow the source
line by line; spec-modelled collaborators (the Packer codec and the
TcpNeighbor host matching) are marked as such in their doc comments.
-/

namespace TcpModel

/-- A byte of a TCP stream, as an octet value. -/
abbrev Byte := Nat

/-- Decimal digit character table: the character for digit d (d below 10). -/
def jsDigitChar (d : Nat) : Char :=
  match d with
  | 0 => '0' | 1 => '1' | 2 => '2' | 3 => '3' | 4 => '4'
  | 5 => '5' | 6 => '6' | 7 => '7' | 8 => '8' | _ => '9'

/-- Accumulator-style decimal digit expansion of a natural number. -/
def natDecimalChars (n : Nat) (acc : List Char) : List Char :=
  if h : n < 10 then jsDigitChar n :: acc
  else natDecimalChars (n / 10) (jsDigitChar (n % 10) :: acc)
decreasing_by
  exact Nat.div_lt_self (by omega) (by omega)

/-- Decimal string of a natural number, modelling JS String(number) for a
nonnegative integer. -/
def jsNumberToString (n : Nat) : String :=
  String.mk (natDecimalChars n [])

/-- JS String.prototype.padStart with a single pad character. -/
def padStart (s : String) (targetLength : Nat) (c : Char) : String :=
  if targetLength ≤ s.length then s
  else String.mk (List.replicate (targetLength - s.length) c ++ s.data)

/-- The bytes of the outbound handshake packet:
new Buffer(String(this._port).padStart(10, '0'), 'utf8'). -/
def portPacket (port : Nat) : List Byte :=
  (padStart (jsNumberToString port) 10 '0').data.map Char.toNat

/-- Value denoted by a list of decimal digit characters (Number(...) on an
all-digit string). -/
def decodeDigitChars (l : List Char) : Nat :=
  l.foldl (fun a c => 10 * a + (c.toNat - 48)) 0

/-- Value denoted by a list of ASCII-digit bytes. -/
def decodePortBytes (l : List Byte) : Nat :=
  l.foldl (fun a b => 10 * a + (b - 48)) 0

/-- The test of the handshake validation regex: ten ASCII digits and nothing
else. -/
def regexTestTenDigits (s : String) : Bool :=
  s.length == 10 && s.data.all Char.isDigit

/-- Number(s) on an all-digit string. -/
def jsParseDigits (s : String) : Nat :=
  decodeDigitChars s.data

/-- A TCP neighbor.  JS objects compare by identity, so the model carries an
identity tag nid; host, port and the two permission flags are the fields the
transport reads.  The flag defaults are the constructor defaults of
TcpNeighbor (tests pass send: false / receive: false to turn them off). -/
structure TcpNeighbor where
  nid : Nat
  host : String
  port : Nat
  gatewayCanSendTo : Bool := true
  gatewayCanReceiveFrom : Bool := true
deriving DecidableEq, Repr

/-- Modelled from the spec: TcpNeighbor.match of src/tcp-neighbor.ts, which is
not part of the corpus; the reference behavior is case-sensitive host-string
equality against a remote address. -/
def TcpNeighbor.matches (n : TcpNeighbor) (addr : String) : Bool :=
  n.host == addr

/-- Modelled from the spec: the external Packer codec of iota-gateway,
exposing packetSize and the pure pack/unpack with pack yielding exactly
packetSize bytes. -/
structure Packer (Data : Type) where
  packetSize : Nat
  pack : Data → List Byte
  unpack : List Byte → Data
  pack_length : ∀ d, (pack d).length = packetSize

/-- A TCP socket, as the transport observes it: its identity, the local and
the remote address, the buffers passed so far to socket.write in order, and
whether it has been destroyed, has had its error handler silenced by
once("error", noop), or reports an error to write callbacks. -/
structure ModelSocket where
  sid : Nat
  localAddress : String
  remoteAddress : String
  writes : List (List Byte) := []
  destroyed : Bool := false
  errorSilenced : Bool := false
  writeError : Bool := false
deriving DecidableEq, Repr

/-- A receive-socket map entry made by _initReceiveSocket: the socket and the
address captured there for the receive events. -/
structure ReceiveEntry where
  socket : ModelSocket
  capturedAddress : String
deriving DecidableEq, Repr

/-- The mutable state of a TcpTransport instance.  The two socket maps and
the neighbor sets are insertion-ordered lists, as JS Map and Set iterate in
insertion order; destroyedSockets records every socket.destroy() call with
the socket state at that moment; receiveHandlers lists the receive sockets
whose close handlers are still attached, i.e. the accepted connections that
are still open. -/
structure TransportState (Data : Type) where
  host : String
  port : Nat
  packer : Packer Data
  reconnectionInterval : Nat
  receiveUnknownNeighbor : Bool
  isRunning : Bool := false
  serverListening : Bool := false
  serverListenersAttached : Bool := false
  neighbors : List TcpNeighbor := []
  reconnectionTimer : Option Nat := none
  neighborsToReconnect : List TcpNeighbor := []
  sendSockets : List (TcpNeighbor × ModelSocket) := []
  receiveSockets : List (TcpNeighbor × ReceiveEntry) := []
  receiveHandlers : List (TcpNeighbor × ModelSocket) := []
  destroyedSockets : List ModelSocket := []
  nextSid : Nat := 0
  nextNid : Nat := 0

/-- The state of a freshly constructed transport. -/
def initState (Data : Type) (host : String) (port : Nat) (packer : Packer Data)
    (reconnectionInterval : Nat) (receiveUnknownNeighbor : Bool) :
    TransportState Data :=
  { host := host, port := port, packer := packer,
    reconnectionInterval := reconnectionInterval,
    receiveUnknownNeighbor := receiveUnknownNeighbor }

/-- Map.get on an association list. -/
def mapFind {α : Type} (m : List (TcpNeighbor × α)) (k : TcpNeighbor) : Option α :=
  match m with
  | [] => none
  | (k1, v) :: rest => if k1 = k then some v else mapFind rest k

/-- Map.set on an association list: replace the entry if the key is present,
append otherwise. -/
def mapSet {α : Type} (m : List (TcpNeighbor × α)) (k : TcpNeighbor) (v : α) :
    List (TcpNeighbor × α) :=
  match m with
  | [] => [(k, v)]
  | (k1, v1) :: rest => if k1 = k then (k, v) :: rest else (k1, v1) :: mapSet rest k v

/-- Map.delete on an association list (removes every entry with the key; with
unique keys this is the single entry). -/
def mapDelete {α : Type} (m : List (TcpNeighbor × α)) (k : TcpNeighbor) :
    List (TcpNeighbor × α) :=
  match m with
  | [] => []
  | (k1, v1) :: rest => if k1 = k then mapDelete rest k else (k1, v1) :: mapDelete rest k

/-- Keys of an association list. -/
def mapKeys {α : Type} (m : List (TcpNeighbor × α)) : List TcpNeighbor :=
  m.map Prod.fst

/-- Set.add: append if absent, keeping insertion order. -/
def setAdd (s : List TcpNeighbor) (n : TcpNeighbor) : List TcpNeighbor :=
  if n ∈ s then s else s ++ [n]

/-- Set.delete (removes every occurrence; with unique members this is the
single one). -/
def setDelete (s : List TcpNeighbor) (n : TcpNeighbor) : List TcpNeighbor :=
  match s with
  | [] => []
  | a :: rest => if a = n then setDelete rest n else a :: setDelete rest n

/-- socket.write(bytes, cb): the buffer is appended to the socket's write
sequence. -/
def socketWrite (sock : ModelSocket) (bytes : List Byte) : ModelSocket :=
  { sock with writes := sock.writes ++ [bytes] }

/-- What the write callback receives for this socket: an error value when the
OS reports a write failure, nothing otherwise. -/
def socketWriteCallbackError (sock : ModelSocket) : Option Unit :=
  if sock.writeError then some () else none

/-- Write a buffer through the send socket registered for a neighbor; the
socket object held in the map is the one being mutated. -/
def writeToSendSocket {Data : Type} (st : TransportState Data) (n : TcpNeighbor)
    (bytes : List Byte) : TransportState Data :=
  match mapFind st.sendSockets n with
  | none => st
  | some sock => { st with sendSockets := mapSet st.sendSockets n (socketWrite sock bytes) }

/-- socket.destroy(): record the destruction with the socket state at that
moment. -/
def destroySocket {Data : Type} (st : TransportState Data) (sock : ModelSocket) :
    TransportState Data :=
  { st with destroyedSockets := st.destroyedSockets ++ [{ sock with destroyed := true }] }

/-- How a pending outbound socket.connect settles: the connect event, the
close event before connect, or an error event. -/
inductive ConnectOutcome where
  | connected
  | closedBeforeConnect
  | errored
deriving DecidableEq, Repr

/-- How _connect rejects. -/
inductive ConnectErr where
  | connectionClosed
  | socketError
deriving DecidableEq, Repr

/-- _connect(neighbor): open a socket to the neighbor; on the connect event
_initSendSocket registers it as the neighbor's send socket, and once the
inner promise resolves the port packet is written; close or error before
connect reject. -/
def _connect {Data : Type} (st : TransportState Data) (n : TcpNeighbor)
    (out : ConnectOutcome) : Except ConnectErr (TransportState Data) :=
  match out with
  | .closedBeforeConnect => .error .connectionClosed
  | .errored => .error .socketError
  | .connected =>
    let sock : ModelSocket :=
      { sid := st.nextSid, localAddress := st.host, remoteAddress := n.host }
    let st1 : TransportState Data :=
      { st with nextSid := st.nextSid + 1, sendSockets := mapSet st.sendSockets n sock }
    .ok (writeToSendSocket st1 n (portPacket st.port))

/-- _disconnect(neighbor): destroy the neighbor's send socket, await its close
(the error handler resolves as well, so this never rejects), then delete the
map entry.  The source is only called with the entry present. -/
def _disconnect {Data : Type} (st : TransportState Data) (n : TcpNeighbor) :
    TransportState Data :=
  match mapFind st.sendSockets n with
  | none => st
  | some sock =>
    let st1 := destroySocket st sock
    { st1 with sendSockets := mapDelete st1.sendSockets n }

/-- How send rejects. -/
inductive SendErr where
  | sendForbidden
  | notConnected
deriving DecidableEq, Repr

/-- send(data, neighbor): permission check, then send-socket lookup, then a
write of packer.pack(data) whose wrapping promise passes resolve as the write
callback (so it fulfills regardless of socketWriteCallbackError). -/
def send {Data : Type} (st : TransportState Data) (d : Data) (n : TcpNeighbor) :
    Except SendErr (TransportState Data) :=
  if n.gatewayCanSendTo = false then .error .sendForbidden
  else
    match mapFind st.sendSockets n with
    | none => .error .notConnected
    | some _ => .ok (writeToSendSocket st n (st.packer.pack d))

/-- How addNeighbor rejects. -/
inductive AddErr where
  | alreadyExists
deriving DecidableEq, Repr

/-- addNeighbor(neighbor): reject a duplicate, insert the neighbor, and while
running attempt a connect whose failure puts the neighbor into
neighborsToReconnect instead of rejecting. -/
def addNeighbor {Data : Type} (st : TransportState Data) (n : TcpNeighbor)
    (out : ConnectOutcome) : Except AddErr (TransportState Data) :=
  if n ∈ st.neighbors then .error .alreadyExists
  else
    let st1 : TransportState Data := { st with neighbors := setAdd st.neighbors n }
    if st1.isRunning then
      match _connect st1 n out with
      | .ok st2 => .ok st2
      | .error _ =>
        .ok { st1 with neighborsToReconnect := setAdd st1.neighborsToReconnect n }
    else .ok st1

/-- How removeNeighbor rejects. -/
inductive RemoveErr where
  | notFound
deriving DecidableEq, Repr

/-- removeNeighbor(neighbor): reject an unknown neighbor; silence and destroy
its receive socket and delete that entry; _disconnect its send socket when
present; drop it from neighborsToReconnect and from the neighbor set. -/
def removeNeighbor {Data : Type} (st : TransportState Data) (n : TcpNeighbor) :
    Except RemoveErr (TransportState Data) :=
  if n ∈ st.neighbors then
    let st1 : TransportState Data :=
      match mapFind st.receiveSockets n with
      | some entry =>
        let st' := destroySocket st { entry.socket with errorSilenced := true }
        { st' with receiveSockets := mapDelete st'.receiveSockets n }
      | none => st
    let st2 : TransportState Data :=
      match mapFind st1.sendSockets n with
      | some _ => _disconnect st1 n
      | none => st1
    .ok { st2 with neighborsToReconnect := setDelete st2.neighborsToReconnect n,
                   neighbors := setDelete st2.neighbors n }
  else .error .notFound

/-- How run rejects. -/
inductive RunErr where
  | alreadyRunning
  | listenFailed
deriving DecidableEq, Repr

/-- One step of the initial-connect loop of run: a connect failure adds the
neighbor to neighborsToReconnect. -/
def runConnectStep {Data : Type} (ok : TcpNeighbor → Bool)
    (s : TransportState Data) (n : TcpNeighbor) : TransportState Data :=
  match _connect s n (if ok n then .connected else .errored) with
  | .ok s' => s'
  | .error _ => { s with neighborsToReconnect := setAdd s.neighborsToReconnect n }

/-- run(): reject while running; bind the listener; install the server
handlers; attempt a connect to every neighbor, catching failures into
neighborsToReconnect; arm the reconnection timer; set the running flag. -/
def run {Data : Type} (st : TransportState Data) (listenOk : Bool)
    (ok : TcpNeighbor → Bool) : Except RunErr (TransportState Data) :=
  if st.isRunning then .error .alreadyRunning
  else if listenOk = false then .error .listenFailed
  else
    let st1 : TransportState Data :=
      { st with serverListening := true, serverListenersAttached := true }
    let st2 := st.neighbors.foldl (runConnectStep ok) st1
    .ok { st2 with reconnectionTimer := some st.reconnectionInterval, isRunning := true }

/-- How shutdown rejects. -/
inductive ShutdownErr where
  | notRunning
  | serverCloseFailed
deriving DecidableEq, Repr

/-- The _disconnect loop of shutdown over the keys of the send-socket map. -/
def disconnectAll {Data : Type} (st : TransportState Data) : TransportState Data :=
  (mapKeys st.sendSockets).foldl _disconnect st

/-- The state mutations of shutdown up to the server-close await: listener
handlers detached and every send socket disconnected.  This is the state a
shutdown rejected by a server close error leaves behind. -/
def shutdownCore {Data : Type} (st : TransportState Data) : TransportState Data :=
  disconnectAll { st with serverListenersAttached := false }

/-- shutdown(): reject while idle; detach the server handlers; _disconnect
every send socket; close the server; disarm the reconnection timer; clear
neighborsToReconnect; clear the running flag. -/
def shutdown {Data : Type} (st : TransportState Data) (closeOk : Bool) :
    Except ShutdownErr (TransportState Data) :=
  if st.isRunning = false then .error .notRunning
  else if closeOk then
    .ok { shutdownCore st with serverListening := false, reconnectionTimer := none,
                               neighborsToReconnect := [], isRunning := false }
  else .error .serverCloseFailed

/-- One reconnection attempt: a successful _connect deletes the neighbor from
neighborsToReconnect, a failed one is swallowed. -/
def reconnectAttempt {Data : Type} (ok : TcpNeighbor → Bool)
    (st : TransportState Data) (n : TcpNeighbor) : TransportState Data :=
  match _connect st n (if ok n then .connected else .errored) with
  | .ok st' => { st' with neighborsToReconnect := setDelete st'.neighborsToReconnect n }
  | .error _ => st

/-- One tick of the reconnection loop: attempt a connect for every neighbor
currently in neighborsToReconnect, and once all attempts have settled arm the
next timer with the reconnection interval. -/
def reconnectTick {Data : Type} (st : TransportState Data) (ok : TcpNeighbor → Bool) :
    TransportState Data :=
  let st1 := st.neighborsToReconnect.foldl (reconnectAttempt ok) st
  { st1 with reconnectionTimer := some st.reconnectionInterval }

/-- _initReceiveSocket: capture socket.address().address, register the entry
(overwriting any previous entry of the neighbor) and attach the data, error
and close handlers. -/
def _initReceiveSocket {Data : Type} (st : TransportState Data) (sock : ModelSocket)
    (n : TcpNeighbor) : TransportState Data :=
  let entry : ReceiveEntry := { socket := sock, capturedAddress := sock.localAddress }
  { st with receiveSockets := mapSet st.receiveSockets n entry,
            receiveHandlers := st.receiveHandlers ++ [(n, sock)] }

/-- The receive event emitted for one framed block on a registered receive
socket: unpacked data, the owning neighbor, and the address captured at
_initReceiveSocket. -/
def emitReceive {Data : Type} (st : TransportState Data) (n : TcpNeighbor)
    (entry : ReceiveEntry) (block : List Byte) : Data × TcpNeighbor × String :=
  (st.packer.unpack block, n, entry.capturedAddress)

/-- The close handler installed by _initReceiveSocket for (neighbor, socket):
destroy the socket, delete the neighbor's receive-socket entry
unconditionally, and detach the handlers. -/
def receiveSocketClose {Data : Type} (st : TransportState Data) (n : TcpNeighbor)
    (sock : ModelSocket) : TransportState Data :=
  { destroySocket st sock with
    receiveSockets := mapDelete st.receiveSockets n,
    receiveHandlers := st.receiveHandlers.filter (fun e => !(e = (n, sock) : Bool)) }

/-- The close handler installed by _initSendSocket for (neighbor, socket):
destroy the socket and delete the neighbor's send-socket entry. -/
def sendSocketClose {Data : Type} (st : TransportState Data) (n : TcpNeighbor)
    (sock : ModelSocket) : TransportState Data :=
  { destroySocket st sock with sendSockets := mapDelete st.sendSockets n }

/-- The first event observed on an accepted inbound socket while the
handshake listeners are attached. -/
inductive InboundEvent where
  | dataReceived (payload : String)
  | socketError
  | socketClosed
  | timedOut
deriving DecidableEq, Repr

/-- How _receiveConnection rejects. -/
inductive ReceiveErr where
  | handshakeInvalid (text : String)
  | handshakeTimeout
  | socketError
  | connectionClosed
deriving DecidableEq, Repr

/-- Everything _receiveConnection leaves behind: the transport state, the
final state of the inbound socket, how the routine settled, which neighbor the
socket was registered to (if any), and the neighbor event payload (if any). -/
structure InboundResult (Data : Type) where
  state : TransportState Data
  socket : ModelSocket
  result : Except ReceiveErr Unit
  registeredNeighbor : Option TcpNeighbor
  emittedNeighbor : Option TcpNeighbor

/-- First neighbor of the list whose host matches the address (the for-of
loop with break over the neighbor set). -/
def findMatching (l : List TcpNeighbor) (addr : String) : Option TcpNeighbor :=
  match l with
  | [] => none
  | n :: rest => if n.matches addr then some n else findMatching rest addr

/-- getNeighbor(address). -/
def getNeighbor {Data : Type} (st : TransportState Data) (addr : String) :
    Option TcpNeighbor :=
  findMatching st.neighbors addr

/-- isConnectedTo(neighbor). -/
def isConnectedTo {Data : Type} (st : TransportState Data) (n : TcpNeighbor) : Bool :=
  (mapFind st.sendSockets n).isSome

/-- _receiveConnection(socket): await the first socket event.  A data event
runs the handshake validation; on failure the promise is rejected with the
received text but the socket is left as it is (the source calls reject
without destroying the socket and without returning, and the subsequent
resolve loses against the earlier reject).  On success the neighbor lookup
and the capture for the receive events both use socket.address().address,
the local address of the accepted socket.  An unknown address is either
admitted through addNeighbor (receiveUnknownNeighbor, with the un-awaited
connect attempt of addNeighbor settling as unknownConnectOut) with a
neighbor event, or silently dropped; a neighbor that forbids receiving is
silently dropped; otherwise _initReceiveSocket registers the socket. -/
def _receiveConnection {Data : Type} (st : TransportState Data) (sock : ModelSocket)
    (ev : InboundEvent) (unknownConnectOut : ConnectOutcome) : InboundResult Data :=
  match ev with
  | .socketError => ⟨st, sock, .error .socketError, none, none⟩
  | .socketClosed => ⟨st, sock, .error .connectionClosed, none, none⟩
  | .timedOut =>
    ⟨st, { sock with errorSilenced := true, destroyed := true },
      .error .handshakeTimeout, none, none⟩
  | .dataReceived payload =>
    if payload.length ≠ 10 ∨ regexTestTenDigits payload = false then
      ⟨st, sock, .error (.handshakeInvalid payload), none, none⟩
    else
      let remotePort := jsParseDigits payload
      let address := sock.localAddress
      match findMatching st.neighbors address with
      | some n =>
        if n.gatewayCanReceiveFrom = false then
          ⟨st, { sock with errorSilenced := true, destroyed := true }, .ok (), none, none⟩
        else
          ⟨_initReceiveSocket st sock n, sock, .ok (), some n, none⟩
      | none =>
        if st.receiveUnknownNeighbor then
          let n : TcpNeighbor := { nid := st.nextNid, host := address, port := remotePort }
          let stAdded : TransportState Data :=
            match addNeighbor { st with nextNid := st.nextNid + 1 } n unknownConnectOut with
            | .ok s => s
            | .error _ => { st with nextNid := st.nextNid + 1 }
          if n.gatewayCanReceiveFrom = false then
            ⟨stAdded, { sock with errorSilenced := true, destroyed := true },
              .ok (), none, some n⟩
          else
            ⟨_initReceiveSocket stAdded sock n, sock, .ok (), some n, some n⟩
        else
          ⟨st, { sock with errorSilenced := true, destroyed := true }, .ok (), none, none⟩

/-- The transport states reachable through the public operations and the
asynchronous events of their installed handlers, starting from a fresh
transport: addNeighbor, removeNeighbor, run and shutdown (in both its
resolving and its server-close-rejected form), reconnection ticks fired
while the timer is armed, send, and the close handlers of send and receive
sockets. -/
inductive Reachable (Data : Type) : TransportState Data → Prop where
  | init (host : String) (port : Nat) (packer : Packer Data)
      (reconnectionInterval : Nat) (receiveUnknownNeighbor : Bool) :
      Reachable Data (initState Data host port packer reconnectionInterval receiveUnknownNeighbor)
  | addOk (st : TransportState Data) (n : TcpNeighbor) (out : ConnectOutcome)
      (st1 : TransportState Data) :
      Reachable Data st → addNeighbor st n out = Except.ok st1 → Reachable Data st1
  | removeOk (st : TransportState Data) (n : TcpNeighbor) (st1 : TransportState Data) :
      Reachable Data st → removeNeighbor st n = Except.ok st1 → Reachable Data st1
  | runOk (st : TransportState Data) (ok : TcpNeighbor → Bool) (st1 : TransportState Data) :
      Reachable Data st → run st true ok = Except.ok st1 → Reachable Data st1
  | shutdownOk (st : TransportState Data) (st1 : TransportState Data) :
      Reachable Data st → shutdown st true = Except.ok st1 → Reachable Data st1
  | shutdownFailed (st : TransportState Data) :
      Reachable Data st → st.isRunning = true → Reachable Data (shutdownCore st)
  | tick (st : TransportState Data) (ok : TcpNeighbor → Bool) :
      Reachable Data st → st.reconnectionTimer.isSome = true →
      Reachable Data (reconnectTick st ok)
  | sendOk (st : TransportState Data) (d : Data) (n : TcpNeighbor)
      (st1 : TransportState Data) :
      Reachable Data st → send st d n = Except.ok st1 → Reachable Data st1
  | sendClose (st : TransportState Data) (n : TcpNeighbor) (sock : ModelSocket) :
      Reachable Data st → Reachable Data (sendSocketClose st n sock)
  | receiveClose (st : TransportState Data) (n : TcpNeighbor) (sock : ModelSocket) :
      Reachable Data st → Reachable Data (receiveSocketClose st n sock)

/-- The inductive state invariant: the neighbor structures are
duplicate-free, neighborsToReconnect is inside the neighbor table and
disjoint from the send-socket map, send-socket keys are known neighbors, an
idle transport holds no send sockets and no reconnection backlog, and the
reconnection timer is armed exactly while running. -/
def StateInv {Data : Type} (st : TransportState Data) : Prop :=
  st.neighbors.Nodup ∧
  st.neighborsToReconnect.Nodup ∧
  (mapKeys st.sendSockets).Nodup ∧
  (∀ n, n ∈ st.neighborsToReconnect → n ∈ st.neighbors) ∧
  (∀ n, (mapFind st.sendSockets n).isSome = true → n ∈ st.neighbors) ∧
  (∀ n, n ∈ st.neighborsToReconnect → mapFind st.sendSockets n = none) ∧
  (st.isRunning = false → st.sendSockets = [] ∧ st.neighborsToReconnect = []) ∧
  st.reconnectionTimer.isSome = st.isRunning

/-- A concrete packer instance used by the concrete evaluations below. -/
def natPacker : Packer Nat :=
  { packetSize := 3,
    pack := fun d => [d % 256, 0, 0],
    unpack := fun l => l.headD 0,
    pack_length := fun _ => rfl }

/-- A neighbor whose host is the remote address of sockInboundA. -/
def nbrA : TcpNeighbor := { nid := 0, host := "10.0.0.7", port := 4010 }

/-- A neighbor whose host happens to equal the listener-side local address of
sockInboundA. -/
def nbrB : TcpNeighbor := { nid := 1, host := "192.168.0.5", port := 4010 }

/-- An accepted inbound socket on a non-loopback deployment: the local
(listener-side) address and the remote peer address differ. -/
def sockInboundA : ModelSocket :=
  { sid := 0, localAddress := "192.168.0.5", remoteAddress := "10.0.0.7" }

/-- A transport that knows the neighbor at the remote address of
sockInboundA. -/
def stKnowsA : TransportState Nat :=
  { initState Nat "0.0.0.0" 4000 natPacker 60000 false with
    neighbors := [nbrA], isRunning := true, serverListening := true,
    serverListenersAttached := true, reconnectionTimer := some 60000 }

/-- A transport that knows the neighbor whose host equals the listener-side
local address of sockInboundA. -/
def stKnowsB : TransportState Nat :=
  { initState Nat "0.0.0.0" 4000 natPacker 60000 false with
    neighbors := [nbrB], isRunning := true, serverListening := true,
    serverListenersAttached := true, reconnectionTimer := some 60000 }

/-- A send socket whose writes report errors to their callbacks. -/
def sockSendErr : ModelSocket :=
  { sid := 5, localAddress := "0.0.0.0", remoteAddress := "10.0.0.7", writeError := true }

/-- A running transport with a send socket for nbrA registered. -/
def stSendA : TransportState Nat :=
  { initState Nat "0.0.0.0" 4000 natPacker 60000 false with
    neighbors := [nbrA], isRunning := true, serverListening := true,
    serverListenersAttached := true, reconnectionTimer := some 60000,
    sendSockets := [(nbrA, sockSendErr)], nextSid := 6 }

/-- A neighbor with loopback host for the duplicate-accept scenario. -/
def nbrR : TcpNeighbor := { nid := 2, host := "127.0.0.1", port := 4010 }

/-- First accepted connection from nbrR. -/
def sockR1 : ModelSocket :=
  { sid := 11, localAddress := "127.0.0.1", remoteAddress := "127.0.0.1" }

/-- Second accepted connection from nbrR, accepted while the first is still
open. -/
def sockR2 : ModelSocket :=
  { sid := 12, localAddress := "127.0.0.1", remoteAddress := "127.0.0.1" }

/-- A running transport that knows nbrR and has no receive socket yet. -/
def stRecv0 : TransportState Nat :=
  { initState Nat "0.0.0.0" 4000 natPacker 60000 false with
    neighbors := [nbrR], isRunning := true, serverListening := true,
    serverListenersAttached := true, reconnectionTimer := some 60000 }

/-- stRecv0 after the first inbound connection from nbrR is registered. -/
def stRecv1 : TransportState Nat := _initReceiveSocket stRecv0 sockR1 nbrR

/-- stRecv1 after a second inbound connection from nbrR is registered while
the first is still open. -/
def stRecv2 : TransportState Nat := _initReceiveSocket stRecv1 sockR2 nbrR

/-- stRecv2 after the close handler of the FIRST socket fires. -/
def stRecv3 : TransportState Nat := receiveSocketClose stRecv2 nbrR sockR1

/-- A transport state with a receive socket and a send socket for nbrR and
nbrR awaiting reconnection is not possible; this state exercises
removeNeighbor with both sockets present. -/
def stRemove : TransportState Nat :=
  { initState Nat "0.0.0.0" 4000 natPacker 60000 false with
    neighbors := [nbrR], isRunning := true, serverListening := true,
    serverListenersAttached := true, reconnectionTimer := some 60000,
    receiveSockets := [(nbrR, { socket := sockR1, capturedAddress := "127.0.0.1" })],
    sendSockets := [(nbrR, sockSendErr)], nextSid := 13 }

/-- A freshly constructed transport used by the reachability witness. -/
def stInit : TransportState Nat := initState Nat "0.0.0.0" 4000 natPacker 50 false

/-- stInit once run() has resolved with no neighbors configured. -/
def stRunning : TransportState Nat :=
  { stInit with serverListening := true, serverListenersAttached := true,
                reconnectionTimer := some 50, isRunning := true }

/-- A neighbor added to the running transport whose initial connect fails. -/
def nbrW : TcpNeighbor := { nid := 3, host := "10.0.0.9", port := 4010 }

/-- stRunning after addNeighbor(nbrW) whose connect attempt failed: nbrW is
in the table and awaits reconnection. -/
def stNeedsRec : TransportState Nat :=
  { stRunning with neighbors := [nbrW], neighborsToReconnect := [nbrW] }

/-- A running transport with two neighbors awaiting reconnection, for the
reconnection-tick witness. -/
def stTick : TransportState Nat :=
  { initState Nat "0.0.0.0" 4000 natPacker 60000 false with
    neighbors := [nbrA, nbrR], neighborsToReconnect := [nbrA, nbrR],
    isRunning := true, serverListening := true, serverListenersAttached := true,
    reconnectionTimer := some 60000 }

/-- A connect oracle under which only nbrA's connect succeeds. -/
def tickOk : TcpNeighbor → Bool := fun n => n.nid == 0

/-- stSendA after send(7, nbrA) has appended the packed buffer to the send
socket. -/
def stSendAAfter : TransportState Nat :=
  { stSendA with
    sendSockets := mapSet stSendA.sendSockets nbrA
      (socketWrite sockSendErr (stSendA.packer.pack 7)) }

theorem jsDigitChar_toNat (d : Nat) (h : d < 10) : (jsDigitChar d).toNat = 48 + d := by
  interval_cases d <;> rfl

theorem natDecimalChars_eq_append (n : Nat) :
    ∀ acc, natDecimalChars n acc = natDecimalChars n [] ++ acc := by
  induction n using Nat.strong_induction_on with
  | _ n ih =>
    intro acc
    by_cases h : n < 10
    · conv_lhs => rw [natDecimalChars]
      conv_rhs => rw [natDecimalChars]
      simp [h]
    · have hlt : n / 10 < n := Nat.div_lt_self (by omega) (by omega)
      conv_lhs => rw [natDecimalChars]
      conv_rhs => rw [natDecimalChars]
      simp only [h, dite_false]
      rw [ih (n / 10) hlt (jsDigitChar (n % 10) :: acc), ih (n / 10) hlt [jsDigitChar (n % 10)]]
      simp

theorem natDecimalChars_nil_length (k : Nat) :
    ∀ n, n < 10 ^ (k + 1) → (natDecimalChars n []).length ≤ k + 1 := by
  induction k with
  | zero =>
    intro n h
    have h10 : n < 10 := by simpa using h
    rw [natDecimalChars]
    simp [h10]
  | succ k ih =>
    intro n h
    rw [natDecimalChars]
    by_cases h10 : n < 10
    · simp [h10]
    · have hdiv : n / 10 < 10 ^ (k + 1) := by
        rw [Nat.div_lt_iff_lt_mul (by omega)]
        calc n < 10 ^ (k + 1 + 1) := h
        _ = 10 ^ (k + 1) * 10 := by ring
      simp only [h10, dite_false]
      rw [natDecimalChars_eq_append]
      have := ih (n / 10) hdiv
      simp only [List.length_append, List.length_cons, List.length_nil]
      omega

theorem natDecimalChars_digit_bytes (n : Nat) :
    ∀ acc, (∀ c ∈ acc, 48 ≤ c.toNat ∧ c.toNat ≤ 57) →
      ∀ c ∈ natDecimalChars n acc, 48 ≤ c.toNat ∧ c.toNat ≤ 57 := by
  induction n using Nat.strong_induction_on with
  | _ n ih =>
    intro acc hacc c hc
    rw [natDecimalChars] at hc
    by_cases h : n < 10
    · simp only [h, dite_true] at hc
      rcases List.mem_cons.mp hc with h1 | h1
      · subst h1
        rw [jsDigitChar_toNat n h]
        omega
      · exact hacc c h1
    · have hlt : n / 10 < n := Nat.div_lt_self (by omega) (by omega)
      simp only [h, dite_false] at hc
      refine ih (n / 10) hlt (jsDigitChar (n % 10) :: acc) ?_ c hc
      intro c1 hc1
      rcases List.mem_cons.mp hc1 with h1 | h1
      · subst h1
        rw [jsDigitChar_toNat (n % 10) (Nat.mod_lt n (by omega))]
        have := Nat.mod_lt n (show 0 < 10 by omega)
        omega
      · exact hacc c1 h1

theorem decodeDigitChars_append_singleton (l : List Char) (c : Char) :
    decodeDigitChars (l ++ [c]) = 10 * decodeDigitChars l + (c.toNat - 48) := by
  unfold decodeDigitChars
  rw [List.foldl_append]
  rfl

theorem decode_natDecimalChars (n : Nat) :
    decodeDigitChars (natDecimalChars n []) = n := by
  induction n using Nat.strong_induction_on with
  | _ n ih =>
    rw [natDecimalChars]
    by_cases h : n < 10
    · simp only [h, dite_true]
      show 10 * 0 + ((jsDigitChar n).toNat - 48) = n
      rw [jsDigitChar_toNat n h]
      omega
    · have hlt : n / 10 < n := Nat.div_lt_self (by omega) (by omega)
      simp only [h, dite_false]
      rw [natDecimalChars_eq_append, decodeDigitChars_append_singleton, ih (n / 10) hlt,
        jsDigitChar_toNat (n % 10) (Nat.mod_lt n (by omega))]
      omega

theorem decode_replicate_zero (k : Nat) (l : List Char) :
    decodeDigitChars (List.replicate k '0' ++ l) = decodeDigitChars l := by
  induction k with
  | zero => rfl
  | succ k ih =>
    rw [List.replicate_succ, List.cons_append]
    show decodeDigitChars (List.replicate k '0' ++ l) = _
    exact ih

theorem padStart_data_of_le (s : String) (h : s.length ≤ 10) :
    (padStart s 10 '0').data = List.replicate (10 - s.length) '0' ++ s.data := by
  unfold padStart
  by_cases h10 : 10 ≤ s.length
  · have hlen : s.length = 10 := by omega
    simp [h10, hlen]
  · simp [h10]

theorem jsNumberToString_data (n : Nat) :
    (jsNumberToString n).data = natDecimalChars n [] := rfl

theorem jsNumberToString_length_le (n : Nat) (h : n < 10 ^ 10) :
    (jsNumberToString n).length ≤ 10 := by
  show (jsNumberToString n).data.length ≤ 10
  rw [jsNumberToString_data]
  exact natDecimalChars_nil_length 9 n h

theorem portPacket_length (port : Nat) (h : port < 10 ^ 10) :
    (portPacket port).length = 10 := by
  unfold portPacket
  rw [List.length_map, padStart_data_of_le _ (jsNumberToString_length_le port h)]
  have hle := jsNumberToString_length_le port h
  simp only [List.length_append, List.length_replicate]
  have : (jsNumberToString port).data.length = (jsNumberToString port).length := rfl
  omega

theorem portPacket_digit_bytes (port : Nat) (h : port < 10 ^ 10) :
    ∀ b ∈ portPacket port, 48 ≤ b ∧ b ≤ 57 := by
  intro b hb
  unfold portPacket at hb
  rcases List.mem_map.mp hb with ⟨c, hc, rfl⟩
  rw [padStart_data_of_le _ (jsNumberToString_length_le port h)] at hc
  rcases List.mem_append.mp hc with h1 | h1
  · have : c = '0' := List.eq_of_mem_replicate h1
    subst this
    constructor <;> decide
  · rw [jsNumberToString_data] at h1
    exact natDecimalChars_digit_bytes port [] (by intro c hc1; cases hc1) c h1

theorem portPacket_decodes (port : Nat) (h : port < 10 ^ 10) :
    decodePortBytes (portPacket port) = port := by
  unfold portPacket decodePortBytes
  rw [List.foldl_map]
  show decodeDigitChars (padStart (jsNumberToString port) 10 '0').data = port
  rw [padStart_data_of_le _ (jsNumberToString_length_le port h), decode_replicate_zero,
    jsNumberToString_data]
  exact decode_natDecimalChars port

theorem mapFind_mapSet_self {α : Type} (m : List (TcpNeighbor × α)) (k : TcpNeighbor) (v : α) :
    mapFind (mapSet m k v) k = some v := by
  induction m with
  | nil => simp [mapSet, mapFind]
  | cons e rest ih =>
    obtain ⟨k1, v1⟩ := e
    by_cases h : k1 = k
    · simp [mapSet, h, mapFind]
    · simp [mapSet, h, mapFind, ih]

theorem mapFind_mapSet_ne {α : Type} (m : List (TcpNeighbor × α)) (k k1 : TcpNeighbor) (v : α)
    (h : k1 ≠ k) : mapFind (mapSet m k v) k1 = mapFind m k1 := by
  induction m with
  | nil => simp [mapSet, mapFind, Ne.symm h]
  | cons e rest ih =>
    obtain ⟨k2, v2⟩ := e
    by_cases h2 : k2 = k
    · subst h2
      simp [mapSet, mapFind, Ne.symm h]
    · simp only [mapSet, h2, if_false, mapFind]
      by_cases h3 : k2 = k1 <;> simp [h3, ih]

theorem mapFind_mapDelete_self {α : Type} (m : List (TcpNeighbor × α)) (k : TcpNeighbor) :
    mapFind (mapDelete m k) k = none := by
  induction m with
  | nil => rfl
  | cons e rest ih =>
    obtain ⟨k1, v1⟩ := e
    by_cases h : k1 = k
    · simp [mapDelete, h, ih]
    · simp [mapDelete, h, mapFind, ih]

theorem mapFind_mapDelete_ne {α : Type} (m : List (TcpNeighbor × α)) (k k1 : TcpNeighbor)
    (h : k1 ≠ k) : mapFind (mapDelete m k) k1 = mapFind m k1 := by
  induction m with
  | nil => rfl
  | cons e rest ih =>
    obtain ⟨k2, v2⟩ := e
    by_cases h2 : k2 = k
    · subst h2
      simp [mapDelete, mapFind, Ne.symm h, ih]
    · simp only [mapDelete, h2, if_false, mapFind]
      by_cases h3 : k2 = k1 <;> simp [h3, ih]

theorem mapFind_eq_none_of_not_mem_keys {α : Type} (m : List (TcpNeighbor × α))
    (k : TcpNeighbor) (h : k ∉ mapKeys m) : mapFind m k = none := by
  induction m with
  | nil => rfl
  | cons e rest ih =>
    obtain ⟨k1, v1⟩ := e
    simp only [mapKeys, List.map_cons, List.mem_cons] at h
    push_neg at h
    rw [mapFind, if_neg (Ne.symm h.1)]
    exact ih (by simpa [mapKeys] using h.2)

theorem mapKeys_nil {α : Type} : mapKeys ([] : List (TcpNeighbor × α)) = [] := rfl

theorem mapKeys_cons {α : Type} (e : TcpNeighbor × α) (m : List (TcpNeighbor × α)) :
    mapKeys (e :: m) = e.1 :: mapKeys m := rfl

theorem mem_keys_of_mapFind_isSome {α : Type} (m : List (TcpNeighbor × α)) (k : TcpNeighbor)
    (h : (mapFind m k).isSome = true) : k ∈ mapKeys m := by
  induction m with
  | nil => simp [mapFind] at h
  | cons e rest ih =>
    obtain ⟨k1, v1⟩ := e
    simp only [mapFind] at h
    rw [mapKeys_cons, List.mem_cons]
    by_cases h1 : k1 = k
    · exact Or.inl h1.symm
    · simp only [h1, if_false] at h
      exact Or.inr (ih h)

theorem mapKeys_mapSet_of_mem {α : Type} (m : List (TcpNeighbor × α)) (k : TcpNeighbor)
    (v : α) (h : k ∈ mapKeys m) : mapKeys (mapSet m k v) = mapKeys m := by
  induction m with
  | nil => simp [mapKeys] at h
  | cons e rest ih =>
    obtain ⟨k1, v1⟩ := e
    by_cases h1 : k1 = k
    · subst h1
      simp [mapSet, mapKeys_cons]
    · rw [mapKeys_cons, List.mem_cons] at h
      rcases h with h | h
      · exact absurd h.symm h1
      · simp only [mapSet, h1, if_false]
        rw [mapKeys_cons, mapKeys_cons, ih h]

theorem mapKeys_mapSet_of_not_mem {α : Type} (m : List (TcpNeighbor × α)) (k : TcpNeighbor)
    (v : α) (h : k ∉ mapKeys m) : mapKeys (mapSet m k v) = mapKeys m ++ [k] := by
  induction m with
  | nil => simp [mapSet, mapKeys]
  | cons e rest ih =>
    obtain ⟨k1, v1⟩ := e
    rw [mapKeys_cons, List.mem_cons] at h
    push_neg at h
    simp only [mapSet, Ne.symm h.1, if_false]
    rw [mapKeys_cons, mapKeys_cons, ih h.2, List.cons_append]

theorem mapDelete_sublist {α : Type} (m : List (TcpNeighbor × α)) (k : TcpNeighbor) :
    (mapDelete m k).Sublist m := by
  induction m with
  | nil => simp [mapDelete]
  | cons e rest ih =>
    obtain ⟨k1, v1⟩ := e
    by_cases h : k1 = k
    · simp only [mapDelete, h, if_true]
      exact ih.cons _
    · simp only [mapDelete, h, if_false]
      exact ih.cons₂ _

theorem mapKeys_mapDelete_nodup {α : Type} (m : List (TcpNeighbor × α)) (k : TcpNeighbor)
    (h : (mapKeys m).Nodup) : (mapKeys (mapDelete m k)).Nodup :=
  List.Nodup.sublist (List.Sublist.map Prod.fst (mapDelete_sublist m k)) h

theorem mem_setAdd {s : List TcpNeighbor} {n x : TcpNeighbor} :
    x ∈ setAdd s n ↔ x ∈ s ∨ x = n := by
  unfold setAdd
  by_cases h : n ∈ s
  · simp only [h, if_true]
    constructor
    · exact Or.inl
    · rintro (hx | rfl)
      · exact hx
      · exact h
  · simp [h]

theorem setAdd_nodup {s : List TcpNeighbor} {n : TcpNeighbor} (h : s.Nodup) :
    (setAdd s n).Nodup := by
  unfold setAdd
  by_cases hn : n ∈ s
  · simpa [hn]
  · simp only [hn, if_false]
    refine List.Nodup.append h (List.nodup_singleton n) ?_
    intro a ha hb
    rw [List.mem_singleton] at hb
    subst hb
    exact hn ha

theorem mem_setDelete {s : List TcpNeighbor} {n x : TcpNeighbor} :
    x ∈ setDelete s n ↔ x ∈ s ∧ x ≠ n := by
  induction s with
  | nil => simp [setDelete]
  | cons a rest ih =>
    by_cases h : a = n
    · subst h
      simp only [setDelete, if_true, ih, List.mem_cons]
      constructor
      · rintro ⟨hx, hne⟩
        exact ⟨Or.inr hx, hne⟩
      · rintro ⟨hx | hx, hne⟩
        · exact absurd hx hne
        · exact ⟨hx, hne⟩
    · simp only [setDelete, h, if_false, List.mem_cons, ih]
      constructor
      · rintro (rfl | ⟨hx, hne⟩)
        · exact ⟨Or.inl rfl, fun hh => h hh⟩
        · exact ⟨Or.inr hx, hne⟩
      · rintro ⟨rfl | hx, hne⟩
        · exact Or.inl rfl
        · exact Or.inr ⟨hx, hne⟩

theorem setDelete_sublist (s : List TcpNeighbor) (n : TcpNeighbor) :
    (setDelete s n).Sublist s := by
  induction s with
  | nil => simp [setDelete]
  | cons a rest ih =>
    by_cases h : a = n
    · simp only [setDelete, h, if_true]
      exact ih.cons _
    · simp only [setDelete, h, if_false]
      exact ih.cons₂ _

theorem setDelete_nodup {s : List TcpNeighbor} {n : TcpNeighbor} (h : s.Nodup) :
    (setDelete s n).Nodup :=
  List.Nodup.sublist (setDelete_sublist s n) h

theorem writeToSendSocket_of_find {Data : Type} (st : TransportState Data) (n : TcpNeighbor)
    (sock : ModelSocket) (bytes : List Byte) (h : mapFind st.sendSockets n = some sock) :
    writeToSendSocket st n bytes =
      { st with sendSockets := mapSet st.sendSockets n (socketWrite sock bytes) } := by
  unfold writeToSendSocket
  rw [h]

/-- C1: a successful outbound connect to a neighbor registers the new socket
as that neighbor's send socket, and the complete write sequence of that
socket is one 10-byte packet of ASCII digits whose zero-padded decimal
reading is the transport's local listening port: nothing else precedes the
application packets. -/
theorem connect_writes_exactly_port_handshake {Data : Type} (st : TransportState Data)
    (n : TcpNeighbor) (hport : st.port < 10 ^ 10) :
    ∃ st1 sock, _connect st n ConnectOutcome.connected = Except.ok st1 ∧
      mapFind st1.sendSockets n = some sock ∧
      sock.writes = [portPacket st.port] ∧
      (portPacket st.port).length = 10 ∧
      (∀ b ∈ portPacket st.port, 48 ≤ b ∧ b ≤ 57) ∧
      decodePortBytes (portPacket st.port) = st.port := by
  refine ⟨_,
    socketWrite { sid := st.nextSid, localAddress := st.host, remoteAddress := n.host }
      (portPacket st.port),
    rfl, ?_, rfl, portPacket_length st.port hport,
    portPacket_digit_bytes st.port hport, portPacket_decodes st.port hport⟩
  show mapFind (writeToSendSocket _ n (portPacket st.port)).sendSockets n = _
  rw [writeToSendSocket_of_find _ n _ _ (mapFind_mapSet_self st.sendSockets n _)]
  exact mapFind_mapSet_self _ n _

/-- C1 witness: the theorem applied at the sample transport with local port
4000, whose handshake packet is the ten bytes of the string of ten digits
ending in 4000. -/
theorem connect_writes_exactly_port_handshake_witness :
    (stSendA.port < 10 ^ 10) ∧
    (∃ st1 sock, _connect stSendA nbrR ConnectOutcome.connected = Except.ok st1 ∧
      mapFind st1.sendSockets nbrR = some sock ∧
      sock.writes = [portPacket stSendA.port] ∧
      (portPacket stSendA.port).length = 10 ∧
      (∀ b ∈ portPacket stSendA.port, 48 ≤ b ∧ b ≤ 57) ∧
      decodePortBytes (portPacket stSendA.port) = stSendA.port) ∧
    portPacket 4000 = [48, 48, 48, 48, 48, 48, 52, 48, 48, 48] :=
  ⟨by norm_num [stSendA, initState],
   connect_writes_exactly_port_handshake stSendA nbrR (by norm_num [stSendA, initState]),
   by simp [portPacket, padStart, jsNumberToString, natDecimalChars, jsDigitChar,
        String.length]⟩

/-- C4: send(data, neighbor) fails with SendForbidden whenever the neighbor
forbids sending (before any socket lookup), fails with NotConnected when the
permission holds but no send socket is registered, and otherwise resolves
after appending packer.pack(data) — a buffer of exactly packetSize bytes —
to the send socket's write sequence. -/
theorem send_checks_and_writes {Data : Type} (st : TransportState Data) (d : Data)
    (n : TcpNeighbor) :
    (n.gatewayCanSendTo = false → send st d n = Except.error SendErr.sendForbidden) ∧
    (n.gatewayCanSendTo = true → mapFind st.sendSockets n = none →
      send st d n = Except.error SendErr.notConnected) ∧
    (∀ sock, n.gatewayCanSendTo = true → mapFind st.sendSockets n = some sock →
      send st d n = Except.ok
        { st with sendSockets := mapSet st.sendSockets n (socketWrite sock (st.packer.pack d)) } ∧
      (st.packer.pack d).length = st.packer.packetSize) := by
  refine ⟨?_, ?_, ?_⟩
  · intro h
    simp [send, h]
  · intro hperm hnone
    simp [send, hperm, hnone]
  · intro sock hperm hsome
    constructor
    · simp only [send, hperm, Bool.true_eq_false, if_false, hsome]
      rw [writeToSendSocket_of_find st n sock _ hsome]
    · exact st.packer.pack_length d

/-- C4 witness: the three branches of the theorem at concrete inputs: a
forbidden neighbor, a permitted but unconnected neighbor, and the connected
neighbor of the sample running transport. -/
theorem send_checks_and_writes_witness :
    send stSendA 7 { nbrA with gatewayCanSendTo := false } =
      Except.error SendErr.sendForbidden ∧
    send stSendA 7 nbrR = Except.error SendErr.notConnected ∧
    send stSendA 7 nbrA = Except.ok stSendAAfter ∧
    (stSendA.packer.pack 7).length = stSendA.packer.packetSize := by
  refine ⟨?_, ?_, ?_, ?_⟩
  · exact (send_checks_and_writes stSendA 7 _).1 rfl
  · exact (send_checks_and_writes stSendA 7 nbrR).2.1 rfl (by decide)
  · exact ((send_checks_and_writes stSendA 7 nbrA).2.2 sockSendErr rfl (by decide)).1
  · exact ((send_checks_and_writes stSendA 7 nbrA).2.2 sockSendErr rfl (by decide)).2

/-- C10: once the permission and connection checks pass, send always
resolves: the promise wrapped around socket.write passes its resolver as the
write callback, so even a socket whose writes report errors to the callback
cannot make send reject. -/
theorem send_never_rejects_on_write_error {Data : Type} (st : TransportState Data)
    (d : Data) (n : TcpNeighbor) (sock : ModelSocket)
    (hperm : n.gatewayCanSendTo = true)
    (hsock : mapFind st.sendSockets n = some sock) :
    (send st d n).isOk = true := by
  simp [send, hperm, hsock, Except.isOk, Except.toBool]

/-- C10 witness: the theorem applied to the sample state whose registered
socket reports a write error to the callback; send still resolves. -/
theorem send_never_rejects_on_write_error_witness :
    socketWriteCallbackError sockSendErr = some () ∧
    (send stSendA 7 nbrA).isOk = true :=
  ⟨by decide,
   send_never_rejects_on_write_error stSendA 7 nbrA sockSendErr rfl (by decide)⟩

/-- C7: removeNeighbor fails with NotFound for an unknown neighbor; for a
known one it destroys the receive socket with its error handler silenced and
removes that entry, disconnects and removes the send socket when present,
drops the neighbor from neighborsToReconnect and removes it from the
neighbor set. -/
theorem removeNeighbor_cleans_up {Data : Type} (st : TransportState Data) (n : TcpNeighbor) :
    (n ∉ st.neighbors → removeNeighbor st n = Except.error RemoveErr.notFound) ∧
    (n ∈ st.neighbors → ∃ st1, removeNeighbor st n = Except.ok st1 ∧
      (∀ e, mapFind st.receiveSockets n = some e →
        { e.socket with errorSilenced := true, destroyed := true } ∈ st1.destroyedSockets) ∧
      mapFind st1.receiveSockets n = none ∧
      (∀ sock, mapFind st.sendSockets n = some sock →
        { sock with destroyed := true } ∈ st1.destroyedSockets) ∧
      mapFind st1.sendSockets n = none ∧
      n ∉ st1.neighborsToReconnect ∧
      n ∉ st1.neighbors) := by
  constructor
  · intro hnot
    simp [removeNeighbor, hnot]
  · intro hmem
    rcases hrc : mapFind st.receiveSockets n with _ | e <;>
      rcases hsc : mapFind st.sendSockets n with _ | sock <;>
      refine ⟨_,
        by simp only [removeNeighbor, hmem, if_true, hrc, hsc, _disconnect, destroySocket]; rfl,
        ?_, ?_, ?_, ?_, ?_, ?_⟩
    · intro e he
      exact Option.noConfusion he
    · exact hrc
    · intro sock hs
      exact Option.noConfusion hs
    · exact hsc
    · simp [mem_setDelete]
    · simp [mem_setDelete]
    · intro e he
      exact Option.noConfusion he
    · exact hrc
    · intro sock1 hs
      injection hs with h1
      subst h1
      simp
    · exact mapFind_mapDelete_self _ n
    · simp [mem_setDelete]
    · simp [mem_setDelete]
    · intro e1 he
      injection he with h1
      subst h1
      simp
    · exact mapFind_mapDelete_self _ n
    · intro sock hs
      exact Option.noConfusion hs
    · exact hsc
    · simp [mem_setDelete]
    · simp [mem_setDelete]
    · intro e1 he
      injection he with h1
      subst h1
      simp
    · exact mapFind_mapDelete_self _ n
    · intro sock1 hs
      injection hs with h1
      subst h1
      simp
    · exact mapFind_mapDelete_self _ n
    · simp [mem_setDelete]
    · simp [mem_setDelete]

/-- C7 witness: the theorem applied to the sample state with both a receive
socket and a send socket registered for the neighbor being removed. -/
theorem removeNeighbor_cleans_up_witness :
    nbrR ∈ stRemove.neighbors ∧
    (∃ st1, removeNeighbor stRemove nbrR = Except.ok st1 ∧
      (∀ e, mapFind stRemove.receiveSockets nbrR = some e →
        { e.socket with errorSilenced := true, destroyed := true } ∈ st1.destroyedSockets) ∧
      mapFind st1.receiveSockets nbrR = none ∧
      (∀ sock, mapFind stRemove.sendSockets nbrR = some sock →
        { sock with destroyed := true } ∈ st1.destroyedSockets) ∧
      mapFind st1.sendSockets nbrR = none ∧
      nbrR ∉ st1.neighborsToReconnect ∧
      nbrR ∉ st1.neighbors) :=
  ⟨by decide, (removeNeighbor_cleans_up stRemove nbrR).2 (by decide)⟩

theorem mapDelete_of_not_mem {α : Type} (m : List (TcpNeighbor × α)) (k : TcpNeighbor)
    (h : k ∉ mapKeys m) : mapDelete m k = m := by
  induction m with
  | nil => rfl
  | cons e rest ih =>
    obtain ⟨k1, v1⟩ := e
    rw [mapKeys_cons, List.mem_cons] at h
    push_neg at h
    simp only [mapDelete, Ne.symm h.1, if_false]
    rw [ih h.2]

theorem disconnect_fold_clears {Data : Type} :
    ∀ (m : List (TcpNeighbor × ModelSocket)) (st : TransportState Data),
    st.sendSockets = m → (mapKeys m).Nodup →
    ((mapKeys m).foldl _disconnect st).sendSockets = [] ∧
    ((mapKeys m).foldl _disconnect st).destroyedSockets =
      st.destroyedSockets ++ m.map (fun e => { e.2 with destroyed := true }) := by
  intro m
  induction m with
  | nil =>
    intro st hs _
    simp [mapKeys, hs]
  | cons e rest ih =>
    obtain ⟨k, v⟩ := e
    intro st hs hnd
    rw [mapKeys_cons, List.nodup_cons] at hnd
    have hknotin : k ∉ mapKeys rest := hnd.1
    have hfind : mapFind st.sendSockets k = some v := by
      rw [hs]
      simp [mapFind]
    have hdis : _disconnect st k =
        { destroySocket st v with sendSockets := mapDelete st.sendSockets k } := by
      unfold _disconnect
      rw [hfind]
      rfl
    have hsend : (_disconnect st k).sendSockets = rest := by
      rw [hdis]
      show mapDelete st.sendSockets k = rest
      rw [hs]
      simp only [mapDelete, if_pos rfl]
      exact mapDelete_of_not_mem rest k hknotin
    have hghost : (_disconnect st k).destroyedSockets =
        st.destroyedSockets ++ [{ v with destroyed := true }] := by
      rw [hdis]
      rfl
    rw [mapKeys_cons, List.foldl_cons]
    have hres := ih (_disconnect st k) hsend hnd.2
    refine ⟨hres.1, ?_⟩
    rw [hres.2, hghost, List.map_cons, List.append_assoc]
    rfl

theorem foldl_disconnect_fields {Data : Type} (l : List TcpNeighbor) :
    ∀ st : TransportState Data,
    (l.foldl _disconnect st).neighbors = st.neighbors ∧
    (l.foldl _disconnect st).neighborsToReconnect = st.neighborsToReconnect ∧
    (l.foldl _disconnect st).isRunning = st.isRunning ∧
    (l.foldl _disconnect st).reconnectionTimer = st.reconnectionTimer ∧
    (l.foldl _disconnect st).receiveSockets = st.receiveSockets := by
  induction l with
  | nil => intro st; exact ⟨rfl, rfl, rfl, rfl, rfl⟩
  | cons a t ih =>
    intro st
    rw [List.foldl_cons]
    have hstep : (_disconnect st a).neighbors = st.neighbors ∧
        (_disconnect st a).neighborsToReconnect = st.neighborsToReconnect ∧
        (_disconnect st a).isRunning = st.isRunning ∧
        (_disconnect st a).reconnectionTimer = st.reconnectionTimer ∧
        (_disconnect st a).receiveSockets = st.receiveSockets := by
      unfold _disconnect
      cases mapFind st.sendSockets a <;> simp [destroySocket]
    obtain ⟨h1, h2, h3, h4, h5⟩ := ih (_disconnect st a)
    exact ⟨h1.trans hstep.1, h2.trans hstep.2.1, h3.trans hstep.2.2.1,
      h4.trans hstep.2.2.2.1, h5.trans hstep.2.2.2.2⟩

/-- C5: shutdown fails with NotRunning while idle; when running it resolves
with the reconnection timer cancelled, neighborsToReconnect empty, every
send socket destroyed and its entry removed, and the running flag cleared. -/
theorem shutdown_stops_everything {Data : Type} (st : TransportState Data)
    (hkeys : (mapKeys st.sendSockets).Nodup) :
    (st.isRunning = false → shutdown st true = Except.error ShutdownErr.notRunning) ∧
    (st.isRunning = true → ∃ st1, shutdown st true = Except.ok st1 ∧
      st1.reconnectionTimer = none ∧
      st1.neighborsToReconnect = [] ∧
      st1.sendSockets = [] ∧
      st1.destroyedSockets = st.destroyedSockets ++
        st.sendSockets.map (fun e => { e.2 with destroyed := true }) ∧
      st1.isRunning = false) := by
  constructor
  · intro h
    simp [shutdown, h]
  · intro hrun
    refine ⟨_, by simp only [shutdown, hrun, Bool.true_eq_false, if_false, if_true]; rfl,
      rfl, rfl, ?_, ?_, rfl⟩
    · exact (disconnect_fold_clears st.sendSockets
        { st with serverListenersAttached := false } rfl hkeys).1
    · exact (disconnect_fold_clears st.sendSockets
        { st with serverListenersAttached := false } rfl hkeys).2

/-- C5 witness: the theorem at the idle fresh transport and at the running
sample transport holding one send socket. -/
theorem shutdown_stops_everything_witness :
    shutdown stInit true = Except.error ShutdownErr.notRunning ∧
    (∃ st1, shutdown stSendA true = Except.ok st1 ∧
      st1.reconnectionTimer = none ∧
      st1.neighborsToReconnect = [] ∧
      st1.sendSockets = [] ∧
      st1.destroyedSockets = stSendA.destroyedSockets ++
        stSendA.sendSockets.map (fun e => { e.2 with destroyed := true }) ∧
      st1.isRunning = false) :=
  ⟨(shutdown_stops_everything stInit (by decide)).1 rfl,
   (shutdown_stops_everything stSendA (by decide)).2 rfl⟩

theorem reconnectAttempt_of_not_ok {Data : Type} (ok : TcpNeighbor → Bool)
    (st : TransportState Data) (n : TcpNeighbor) (h : ok n = false) :
    reconnectAttempt ok st n = st := by
  simp [reconnectAttempt, _connect, h]

theorem reconnectAttempt_fields {Data : Type} (ok : TcpNeighbor → Bool)
    (st : TransportState Data) (n : TcpNeighbor) :
    (reconnectAttempt ok st n).reconnectionTimer = st.reconnectionTimer ∧
    (reconnectAttempt ok st n).reconnectionInterval = st.reconnectionInterval ∧
    (reconnectAttempt ok st n).neighbors = st.neighbors ∧
    (reconnectAttempt ok st n).isRunning = st.isRunning ∧
    (reconnectAttempt ok st n).receiveSockets = st.receiveSockets := by
  by_cases h : ok n <;>
    simp [reconnectAttempt, _connect, writeToSendSocket, h, mapFind_mapSet_self]

theorem reconnectAttempt_set {Data : Type} (ok : TcpNeighbor → Bool)
    (st : TransportState Data) (n : TcpNeighbor) :
    (reconnectAttempt ok st n).neighborsToReconnect =
      if ok n = true then setDelete st.neighborsToReconnect n
      else st.neighborsToReconnect := by
  by_cases h : ok n <;>
    simp [reconnectAttempt, _connect, writeToSendSocket, h, mapFind_mapSet_self]

theorem reconnectAttempt_find_preserved {Data : Type} (ok : TcpNeighbor → Bool)
    (st : TransportState Data) (n x : TcpNeighbor)
    (h : (mapFind st.sendSockets x).isSome = true) :
    (mapFind (reconnectAttempt ok st n).sendSockets x).isSome = true := by
  by_cases hok : ok n
  · by_cases hx : x = n
    · subst hx
      simp [reconnectAttempt, _connect, writeToSendSocket, hok, mapFind_mapSet_self]
    · simp only [reconnectAttempt, _connect, writeToSendSocket, hok, if_true,
        mapFind_mapSet_self]
      simpa [mapFind_mapSet_ne _ n x _ hx] using h
  · simpa [reconnectAttempt, _connect, hok] using h

theorem reconnectAttempt_find_self {Data : Type} (ok : TcpNeighbor → Bool)
    (st : TransportState Data) (n : TcpNeighbor) (h : ok n = true) :
    (mapFind (reconnectAttempt ok st n).sendSockets n).isSome = true := by
  simp [reconnectAttempt, _connect, writeToSendSocket, h, mapFind_mapSet_self]

theorem tickFold_fields {Data : Type} (ok : TcpNeighbor → Bool) (l : List TcpNeighbor) :
    ∀ st : TransportState Data,
    ((l.foldl (reconnectAttempt ok) st).reconnectionTimer = st.reconnectionTimer) ∧
    ((l.foldl (reconnectAttempt ok) st).reconnectionInterval = st.reconnectionInterval) ∧
    ((l.foldl (reconnectAttempt ok) st).neighbors = st.neighbors) ∧
    ((l.foldl (reconnectAttempt ok) st).isRunning = st.isRunning) ∧
    ((l.foldl (reconnectAttempt ok) st).receiveSockets = st.receiveSockets) := by
  induction l with
  | nil => intro st; exact ⟨rfl, rfl, rfl, rfl, rfl⟩
  | cons a t ih =>
    intro st
    rw [List.foldl_cons]
    obtain ⟨h1, h2, h3, h4, h5⟩ := ih (reconnectAttempt ok st a)
    obtain ⟨g1, g2, g3, g4, g5⟩ := reconnectAttempt_fields ok st a
    exact ⟨h1.trans g1, h2.trans g2, h3.trans g3, h4.trans g4, h5.trans g5⟩

theorem tickFold_find_preserved {Data : Type} (ok : TcpNeighbor → Bool)
    (l : List TcpNeighbor) :
    ∀ (st : TransportState Data) (x : TcpNeighbor),
    (mapFind st.sendSockets x).isSome = true →
    (mapFind ((l.foldl (reconnectAttempt ok) st)).sendSockets x).isSome = true := by
  induction l with
  | nil => intro st x h; exact h
  | cons a t ih =>
    intro st x h
    rw [List.foldl_cons]
    exact ih (reconnectAttempt ok st a) x (reconnectAttempt_find_preserved ok st a x h)

theorem tickFold_success {Data : Type} (ok : TcpNeighbor → Bool) (l : List TcpNeighbor) :
    ∀ (st : TransportState Data) (x : TcpNeighbor), x ∈ l → ok x = true →
    (mapFind ((l.foldl (reconnectAttempt ok) st)).sendSockets x).isSome = true := by
  induction l with
  | nil => intro st x hx; cases hx
  | cons a t ih =>
    intro st x hx hok
    rw [List.foldl_cons]
    rcases List.mem_cons.mp hx with rfl | hx
    · exact tickFold_find_preserved ok t (reconnectAttempt ok st x) x
        (reconnectAttempt_find_self ok st x hok)
    · exact ih (reconnectAttempt ok st a) x hx hok

theorem tickFold_set_mem {Data : Type} (ok : TcpNeighbor → Bool) (l : List TcpNeighbor) :
    ∀ (st : TransportState Data) (x : TcpNeighbor),
    x ∈ (l.foldl (reconnectAttempt ok) st).neighborsToReconnect ↔
      x ∈ st.neighborsToReconnect ∧ (x ∉ l ∨ ok x = false) := by
  induction l with
  | nil =>
    intro st x
    simp
  | cons a t ih =>
    intro st x
    rw [List.foldl_cons, ih (reconnectAttempt ok st a) x, reconnectAttempt_set]
    by_cases hok : ok a
    · by_cases hx : x = a
      · subst hx
        simp [mem_setDelete, hok]
      · simp only [hok, if_true, mem_setDelete]
        constructor
        · rintro ⟨⟨hmem, _⟩, hrest⟩
          refine ⟨hmem, ?_⟩
          rcases hrest with hnott | hfalse
          · exact Or.inl (by simp [hx, hnott])
          · exact Or.inr hfalse
        · rintro ⟨hmem, hrest⟩
          refine ⟨⟨hmem, hx⟩, ?_⟩
          rcases hrest with hnott | hfalse
          · exact Or.inl (fun ht => hnott (List.mem_cons_of_mem a ht))
          · exact Or.inr hfalse
    · have hok1 : ok a = false := by simpa using hok
      simp only [hok1, Bool.false_eq_true, if_false]
      constructor
      · rintro ⟨hmem, hrest⟩
        refine ⟨hmem, ?_⟩
        by_cases hx : x = a
        · subst hx
          exact Or.inr hok1
        · rcases hrest with hnott | hfalse
          · exact Or.inl (by simp [hx, hnott])
          · exact Or.inr hfalse
      · rintro ⟨hmem, hrest⟩
        refine ⟨hmem, ?_⟩
        rcases hrest with hnott | hfalse
        · exact Or.inl (fun ht => hnott (List.mem_cons_of_mem a ht))
        · exact Or.inr hfalse

/-- C6: a reconnection tick attempts a connect for every neighbor currently
in neighborsToReconnect; afterwards a neighbor is still in the set exactly
when it was there and its connect failed, every neighbor whose connect
succeeded has a send socket, and the next tick is armed with the
reconnection interval once all attempts have settled. -/
theorem reconnect_tick_behavior {Data : Type} (st : TransportState Data)
    (ok : TcpNeighbor → Bool) :
    (∀ x, x ∈ (reconnectTick st ok).neighborsToReconnect ↔
      x ∈ st.neighborsToReconnect ∧ ok x = false) ∧
    (∀ x, x ∈ st.neighborsToReconnect → ok x = true →
      isConnectedTo (reconnectTick st ok) x = true) ∧
    (reconnectTick st ok).reconnectionTimer = some st.reconnectionInterval := by
  refine ⟨?_, ?_, rfl⟩
  · intro x
    show x ∈ (st.neighborsToReconnect.foldl (reconnectAttempt ok) st).neighborsToReconnect ↔ _
    rw [tickFold_set_mem]
    constructor
    · rintro ⟨hmem, hrest⟩
      rcases hrest with hnot | hfalse
      · exact absurd hmem hnot
      · exact ⟨hmem, hfalse⟩
    · rintro ⟨hmem, hfalse⟩
      exact ⟨hmem, Or.inr hfalse⟩
  · intro x hmem hok
    show (mapFind (st.neighborsToReconnect.foldl (reconnectAttempt ok) st).sendSockets x).isSome = true
    exact tickFold_success ok st.neighborsToReconnect st x hmem hok

/-- C6 witness: a tick on the sample state with two waiting neighbors where
only nbrA's connect succeeds: nbrA leaves the set and gains a send socket,
nbrR stays, and the timer is rearmed with the interval. -/
theorem reconnect_tick_behavior_witness :
    isConnectedTo (reconnectTick stTick tickOk) nbrA = true ∧
    nbrR ∈ (reconnectTick stTick tickOk).neighborsToReconnect ∧
    (nbrA ∈ (reconnectTick stTick tickOk).neighborsToReconnect → False) ∧
    (reconnectTick stTick tickOk).reconnectionTimer = some stTick.reconnectionInterval :=
  ⟨(reconnect_tick_behavior stTick tickOk).2.1 nbrA (by decide) (by decide),
   ((reconnect_tick_behavior stTick tickOk).1 nbrR).mpr ⟨by decide, by decide⟩,
   fun h => by
     have := ((reconnect_tick_behavior stTick tickOk).1 nbrA).mp h
     exact absurd this.2 (by decide),
   (reconnect_tick_behavior stTick tickOk).2.2⟩

/-- C3 (code bug): a first payload that is not ten ASCII digits makes the
accept routine fail with handshakeInvalid carrying the text, nothing is
looked up or registered and the transport state is untouched — but the
socket is returned exactly as it was: the source calls reject without
destroying the socket. -/
theorem invalid_handshake_rejects_but_keeps_socket {Data : Type}
    (st : TransportState Data) (sock : ModelSocket) (s : String) (out : ConnectOutcome)
    (h : regexTestTenDigits s = false) :
    (_receiveConnection st sock (InboundEvent.dataReceived s) out).result =
      Except.error (ReceiveErr.handshakeInvalid s) ∧
    (_receiveConnection st sock (InboundEvent.dataReceived s) out).socket = sock ∧
    (_receiveConnection st sock (InboundEvent.dataReceived s) out).registeredNeighbor = none ∧
    (_receiveConnection st sock (InboundEvent.dataReceived s) out).state = st := by
  simp [_receiveConnection, h]

/-- C3 witness: the theorem at the payload of three letters: the routine
fails with the received text, yet the socket stays undestroyed. -/
theorem invalid_handshake_rejects_but_keeps_socket_witness :
    regexTestTenDigits "abc" = false ∧
    (_receiveConnection stKnowsA sockInboundA (InboundEvent.dataReceived "abc")
      ConnectOutcome.errored).result =
      Except.error (ReceiveErr.handshakeInvalid "abc") ∧
    (_receiveConnection stKnowsA sockInboundA (InboundEvent.dataReceived "abc")
      ConnectOutcome.errored).socket = sockInboundA ∧
    sockInboundA.destroyed = false ∧
    (_receiveConnection stKnowsA sockInboundA (InboundEvent.dataReceived "abc")
      ConnectOutcome.errored).registeredNeighbor = none :=
  ⟨by decide,
   (invalid_handshake_rejects_but_keeps_socket stKnowsA sockInboundA "abc"
      ConnectOutcome.errored (by decide)).1,
   (invalid_handshake_rejects_but_keeps_socket stKnowsA sockInboundA "abc"
      ConnectOutcome.errored (by decide)).2.1,
   by decide,
   (invalid_handshake_rejects_but_keeps_socket stKnowsA sockInboundA "abc"
      ConnectOutcome.errored (by decide)).2.2.1⟩

/-- C2 (code bug): on an accepted connection the transport takes
socket.address().address — the LOCAL, listener-side address of the accepted
socket — both to match known neighbors and as the address captured for the
receive events, not the remote peer address.  At a failing input where the
two addresses differ: the neighbor whose host equals the remote peer address
matches the remote address yet the connection is silently dropped without
registration; and a neighbor whose host equals the local address is the one
registered, with the local address as the captured receive-event address. -/
theorem receive_uses_local_not_remote_address :
    nbrA.matches sockInboundA.remoteAddress = true ∧
    sockInboundA.localAddress ≠ sockInboundA.remoteAddress ∧
    (_receiveConnection stKnowsA sockInboundA (InboundEvent.dataReceived "0000004010")
      ConnectOutcome.errored).registeredNeighbor = none ∧
    (_receiveConnection stKnowsA sockInboundA (InboundEvent.dataReceived "0000004010")
      ConnectOutcome.errored).socket.destroyed = true ∧
    nbrB.matches sockInboundA.localAddress = true ∧
    (_receiveConnection stKnowsB sockInboundA (InboundEvent.dataReceived "0000004010")
      ConnectOutcome.errored).registeredNeighbor = some nbrB ∧
    mapFind (_receiveConnection stKnowsB sockInboundA (InboundEvent.dataReceived "0000004010")
      ConnectOutcome.errored).state.receiveSockets nbrB =
      some { socket := sockInboundA, capturedAddress := sockInboundA.localAddress } ∧
    (emitReceive stKnowsB nbrB
      { socket := sockInboundA, capturedAddress := sockInboundA.localAddress }
      [1, 2, 3]).2.2 = sockInboundA.localAddress := by
  refine ⟨by decide, by decide, by decide, by decide, by decide, by decide, by decide, rfl⟩

/-- C9 counterexample: accept a connection from a neighbor, accept a second
one from the same neighbor while the first is open, then let the FIRST
socket close: its handler removes the neighbor's entry, which at that moment
is the second, still-open connection's entry — the second socket's close
handler is still attached and it was never destroyed, yet the neighbor has
no receive-socket entry. -/
theorem receive_entry_lost_for_open_second_connection :
    mapFind stRecv2.receiveSockets nbrR =
      some { socket := sockR2, capturedAddress := "127.0.0.1" } ∧
    (nbrR, sockR2) ∈ stRecv3.receiveHandlers ∧
    (∀ s ∈ stRecv3.destroyedSockets, s.sid ≠ sockR2.sid) ∧
    mapFind stRecv3.receiveSockets nbrR = none := by
  refine ⟨by decide, by decide, ?_, by decide⟩
  decide

/-- C9 amended: at most one receive-socket entry is kept per neighbor, and
when a receive socket's close handler fires the neighbor's entry is removed
unconditionally — also when the entry belongs to a newer, still-open
connection accepted while the closing one was open, so entry existence does
not track the openness of the entry's own connection in that overlap. -/
theorem receive_close_removes_entry_unconditionally {Data : Type}
    (st : TransportState Data) (n : TcpNeighbor) (sock : ModelSocket)
    (hnd : (mapKeys st.receiveSockets).Nodup) :
    mapFind (receiveSocketClose st n sock).receiveSockets n = none ∧
    (mapKeys (receiveSocketClose st n sock).receiveSockets).Nodup ∧
    ∀ sock1, (mapKeys (_initReceiveSocket st sock1 n).receiveSockets).Nodup := by
  refine ⟨mapFind_mapDelete_self _ n, mapKeys_mapDelete_nodup _ n hnd, ?_⟩
  intro sock1
  show (mapKeys (mapSet st.receiveSockets n _)).Nodup
  by_cases h : n ∈ mapKeys st.receiveSockets
  · rw [mapKeys_mapSet_of_mem _ _ _ h]
    exact hnd
  · rw [mapKeys_mapSet_of_not_mem _ _ _ h]
    refine List.Nodup.append hnd (List.nodup_singleton n) ?_
    intro a ha hb
    rw [List.mem_singleton] at hb
    subst hb
    exact h ha

/-- C9 amended witness: the amended theorem at the duplicate-accept sample
state, with the unconditional removal instantiated at the first socket's
close and the at-most-one-entry part at the second registration. -/
theorem receive_close_removes_entry_unconditionally_witness :
    mapFind (receiveSocketClose stRecv2 nbrR sockR1).receiveSockets nbrR = none ∧
    (mapKeys (receiveSocketClose stRecv2 nbrR sockR1).receiveSockets).Nodup ∧
    (mapKeys (_initReceiveSocket stRecv2 sockR2 nbrR).receiveSockets).Nodup :=
  ⟨(receive_close_removes_entry_unconditionally stRecv2 nbrR sockR1 (by decide)).1,
   (receive_close_removes_entry_unconditionally stRecv2 nbrR sockR1 (by decide)).2.1,
   (receive_close_removes_entry_unconditionally stRecv2 nbrR sockR1 (by decide)).2.2 sockR2⟩

theorem runConnectStep_fields {Data : Type} (ok : TcpNeighbor → Bool)
    (s : TransportState Data) (a : TcpNeighbor) :
    (runConnectStep ok s a).neighbors = s.neighbors ∧
    (runConnectStep ok s a).isRunning = s.isRunning ∧
    (runConnectStep ok s a).reconnectionTimer = s.reconnectionTimer ∧
    (runConnectStep ok s a).reconnectionInterval = s.reconnectionInterval ∧
    (runConnectStep ok s a).receiveSockets = s.receiveSockets := by
  by_cases h : ok a <;>
    simp [runConnectStep, _connect, writeToSendSocket, h, mapFind_mapSet_self]

theorem runConnectStep_set {Data : Type} (ok : TcpNeighbor → Bool)
    (s : TransportState Data) (a : TcpNeighbor) :
    (runConnectStep ok s a).neighborsToReconnect =
      if ok a = true then s.neighborsToReconnect
      else setAdd s.neighborsToReconnect a := by
  by_cases h : ok a <;>
    simp [runConnectStep, _connect, writeToSendSocket, h, mapFind_mapSet_self]

theorem runConnectStep_find_other {Data : Type} (ok : TcpNeighbor → Bool)
    (s : TransportState Data) (a x : TcpNeighbor) (h : ¬(x = a ∧ ok a = true)) :
    mapFind (runConnectStep ok s a).sendSockets x = mapFind s.sendSockets x := by
  by_cases hok : ok a
  · have hx : x ≠ a := fun hxa => h ⟨hxa, hok⟩
    simp only [runConnectStep, _connect, writeToSendSocket, hok, if_true,
      mapFind_mapSet_self]
    rw [mapFind_mapSet_ne _ a x _ hx, mapFind_mapSet_ne _ a x _ hx]
  · simp [runConnectStep, _connect, hok]

theorem runConnectStep_find_preserved {Data : Type} (ok : TcpNeighbor → Bool)
    (s : TransportState Data) (a x : TcpNeighbor)
    (h : (mapFind s.sendSockets x).isSome = true) :
    (mapFind (runConnectStep ok s a).sendSockets x).isSome = true := by
  by_cases hok : ok a
  · by_cases hx : x = a
    · subst hx
      simp [runConnectStep, _connect, writeToSendSocket, hok, mapFind_mapSet_self]
    · rw [runConnectStep_find_other ok s a x (fun hh => hx hh.1)]
      exact h
  · simpa [runConnectStep, _connect, hok] using h

theorem runConnectStep_find_self {Data : Type} (ok : TcpNeighbor → Bool)
    (s : TransportState Data) (a : TcpNeighbor) (h : ok a = true) :
    (mapFind (runConnectStep ok s a).sendSockets a).isSome = true := by
  simp [runConnectStep, _connect, writeToSendSocket, h, mapFind_mapSet_self]

theorem runConnectStep_find_origin {Data : Type} (ok : TcpNeighbor → Bool)
    (s : TransportState Data) (a x : TcpNeighbor)
    (h : (mapFind (runConnectStep ok s a).sendSockets x).isSome = true) :
    (mapFind s.sendSockets x).isSome = true ∨ x = a := by
  by_cases hx : x = a
  · exact Or.inr hx
  · left
    rw [runConnectStep_find_other ok s a x (fun hh => hx hh.1)] at h
    exact h

theorem runConnectStep_keys_nodup {Data : Type} (ok : TcpNeighbor → Bool)
    (s : TransportState Data) (a : TcpNeighbor)
    (h : (mapKeys s.sendSockets).Nodup) :
    (mapKeys (runConnectStep ok s a).sendSockets).Nodup := by
  by_cases hok : ok a
  · simp only [runConnectStep, _connect, writeToSendSocket, hok, if_true,
      mapFind_mapSet_self]
    show (mapKeys (mapSet (mapSet s.sendSockets a _) a _)).Nodup
    by_cases hmem : a ∈ mapKeys s.sendSockets
    · rw [mapKeys_mapSet_of_mem _ _ _ (by rwa [mapKeys_mapSet_of_mem _ _ _ hmem]),
        mapKeys_mapSet_of_mem _ _ _ hmem]
      exact h
    · have h1 := mapKeys_mapSet_of_not_mem s.sendSockets a
        { sid := s.nextSid, localAddress := s.host, remoteAddress := a.host,
          writes := [], destroyed := false, errorSilenced := false, writeError := false } hmem
      rw [mapKeys_mapSet_of_mem _ _ _ (by rw [h1]; simp), h1]
      refine List.Nodup.append h (List.nodup_singleton a) ?_
      intro z hz hz1
      rw [List.mem_singleton] at hz1
      subst hz1
      exact hmem hz
  · simpa [runConnectStep, _connect, hok] using h

theorem runConnectStep_set_nodup {Data : Type} (ok : TcpNeighbor → Bool)
    (s : TransportState Data) (a : TcpNeighbor)
    (h : s.neighborsToReconnect.Nodup) :
    (runConnectStep ok s a).neighborsToReconnect.Nodup := by
  rw [runConnectStep_set]
  by_cases hok : ok a
  · simpa [hok]
  · simp only [hok, Bool.false_eq_true, if_false]
    exact setAdd_nodup h

theorem runFold_fields {Data : Type} (ok : TcpNeighbor → Bool) (l : List TcpNeighbor) :
    ∀ s : TransportState Data,
    ((l.foldl (runConnectStep ok) s).neighbors = s.neighbors) ∧
    ((l.foldl (runConnectStep ok) s).isRunning = s.isRunning) ∧
    ((l.foldl (runConnectStep ok) s).reconnectionTimer = s.reconnectionTimer) := by
  induction l with
  | nil => intro s; exact ⟨rfl, rfl, rfl⟩
  | cons a t ih =>
    intro s
    rw [List.foldl_cons]
    obtain ⟨h1, h2, h3⟩ := ih (runConnectStep ok s a)
    obtain ⟨g1, g2, g3, g4, g5⟩ := runConnectStep_fields ok s a
    exact ⟨h1.trans g1, h2.trans g2, h3.trans g3⟩

theorem runFold_set_mem {Data : Type} (ok : TcpNeighbor → Bool) (l : List TcpNeighbor) :
    ∀ (s : TransportState Data) (x : TcpNeighbor),
    x ∈ (l.foldl (runConnectStep ok) s).neighborsToReconnect ↔
      x ∈ s.neighborsToReconnect ∨ (x ∈ l ∧ ok x = false) := by
  induction l with
  | nil =>
    intro s x
    simp
  | cons a t ih =>
    intro s x
    rw [List.foldl_cons, ih (runConnectStep ok s a) x, runConnectStep_set]
    by_cases hok : ok a
    · simp only [hok, if_true, List.mem_cons]
      constructor
      · rintro (hmem | ⟨hx, hfalse⟩)
        · exact Or.inl hmem
        · exact Or.inr ⟨Or.inr hx, hfalse⟩
      · rintro (hmem | ⟨rfl | hx, hfalse⟩)
        · exact Or.inl hmem
        · rw [hok] at hfalse
          cases hfalse
        · exact Or.inr ⟨hx, hfalse⟩
    · have hok1 : ok a = false := by simpa using hok
      simp only [hok1, Bool.false_eq_true, if_false, mem_setAdd, List.mem_cons]
      constructor
      · rintro ((hmem | rfl) | ⟨hx, hfalse⟩)
        · exact Or.inl hmem
        · exact Or.inr ⟨Or.inl rfl, hok1⟩
        · exact Or.inr ⟨Or.inr hx, hfalse⟩
      · rintro (hmem | ⟨rfl | hx, hfalse⟩)
        · exact Or.inl (Or.inl hmem)
        · exact Or.inl (Or.inr rfl)
        · exact Or.inr ⟨hx, hfalse⟩

theorem runFold_find_other {Data : Type} (ok : TcpNeighbor → Bool) (l : List TcpNeighbor) :
    ∀ (s : TransportState Data) (x : TcpNeighbor), ¬(x ∈ l ∧ ok x = true) →
    mapFind (l.foldl (runConnectStep ok) s).sendSockets x = mapFind s.sendSockets x := by
  induction l with
  | nil => intro s x _; rfl
  | cons a t ih =>
    intro s x hx
    rw [List.foldl_cons,
      ih (runConnectStep ok s a) x (fun hh => hx ⟨List.mem_cons_of_mem a hh.1, hh.2⟩),
      runConnectStep_find_other ok s a x
        (fun hh => hx ⟨by rw [hh.1]; exact List.mem_cons_self a t, by rw [hh.1]; exact hh.2⟩)]

theorem runFold_find_preserved {Data : Type} (ok : TcpNeighbor → Bool)
    (l : List TcpNeighbor) :
    ∀ (s : TransportState Data) (x : TcpNeighbor),
    (mapFind s.sendSockets x).isSome = true →
    (mapFind (l.foldl (runConnectStep ok) s).sendSockets x).isSome = true := by
  induction l with
  | nil => intro s x h; exact h
  | cons a t ih =>
    intro s x h
    rw [List.foldl_cons]
    exact ih (runConnectStep ok s a) x (runConnectStep_find_preserved ok s a x h)

theorem runFold_find_success {Data : Type} (ok : TcpNeighbor → Bool) (l : List TcpNeighbor) :
    ∀ (s : TransportState Data) (x : TcpNeighbor), x ∈ l → ok x = true →
    (mapFind (l.foldl (runConnectStep ok) s).sendSockets x).isSome = true := by
  induction l with
  | nil => intro s x hx; cases hx
  | cons a t ih =>
    intro s x hx hok
    rw [List.foldl_cons]
    rcases List.mem_cons.mp hx with rfl | hx
    · exact runFold_find_preserved ok t (runConnectStep ok s x) x
        (runConnectStep_find_self ok s x hok)
    · exact ih (runConnectStep ok s a) x hx hok

theorem runFold_find_origin {Data : Type} (ok : TcpNeighbor → Bool) (l : List TcpNeighbor) :
    ∀ (s : TransportState Data) (x : TcpNeighbor),
    (mapFind (l.foldl (runConnectStep ok) s).sendSockets x).isSome = true →
    (mapFind s.sendSockets x).isSome = true ∨ x ∈ l := by
  induction l with
  | nil => intro s x h; exact Or.inl h
  | cons a t ih =>
    intro s x h
    rw [List.foldl_cons] at h
    rcases ih (runConnectStep ok s a) x h with h1 | h1
    · rcases runConnectStep_find_origin ok s a x h1 with h2 | rfl
      · exact Or.inl h2
      · exact Or.inr (List.mem_cons_self x t)
    · exact Or.inr (List.mem_cons_of_mem a h1)

theorem runFold_keys_nodup {Data : Type} (ok : TcpNeighbor → Bool) (l : List TcpNeighbor) :
    ∀ s : TransportState Data, (mapKeys s.sendSockets).Nodup →
    (mapKeys ((l.foldl (runConnectStep ok) s)).sendSockets).Nodup := by
  induction l with
  | nil => intro s h; exact h
  | cons a t ih =>
    intro s h
    rw [List.foldl_cons]
    exact ih (runConnectStep ok s a) (runConnectStep_keys_nodup ok s a h)

theorem runFold_set_nodup {Data : Type} (ok : TcpNeighbor → Bool) (l : List TcpNeighbor) :
    ∀ s : TransportState Data, s.neighborsToReconnect.Nodup →
    ((l.foldl (runConnectStep ok) s)).neighborsToReconnect.Nodup := by
  induction l with
  | nil => intro s h; exact h
  | cons a t ih =>
    intro s h
    rw [List.foldl_cons]
    exact ih (runConnectStep ok s a) (runConnectStep_set_nodup ok s a h)

theorem reconnectAttempt_find_other {Data : Type} (ok : TcpNeighbor → Bool)
    (st : TransportState Data) (n x : TcpNeighbor) (h : ¬(x = n ∧ ok n = true)) :
    mapFind (reconnectAttempt ok st n).sendSockets x = mapFind st.sendSockets x := by
  by_cases hok : ok n
  · have hx : x ≠ n := fun hxn => h ⟨hxn, hok⟩
    simp only [reconnectAttempt, _connect, writeToSendSocket, hok, if_true,
      mapFind_mapSet_self]
    rw [mapFind_mapSet_ne _ n x _ hx, mapFind_mapSet_ne _ n x _ hx]
  · simp [reconnectAttempt, _connect, hok]

theorem reconnectAttempt_find_origin {Data : Type} (ok : TcpNeighbor → Bool)
    (st : TransportState Data) (n x : TcpNeighbor)
    (h : (mapFind (reconnectAttempt ok st n).sendSockets x).isSome = true) :
    (mapFind st.sendSockets x).isSome = true ∨ x = n := by
  by_cases hx : x = n
  · exact Or.inr hx
  · left
    rw [reconnectAttempt_find_other ok st n x (fun hh => hx hh.1)] at h
    exact h

theorem reconnectAttempt_keys_nodup {Data : Type} (ok : TcpNeighbor → Bool)
    (st : TransportState Data) (n : TcpNeighbor)
    (h : (mapKeys st.sendSockets).Nodup) :
    (mapKeys (reconnectAttempt ok st n).sendSockets).Nodup := by
  by_cases hok : ok n
  · simp only [reconnectAttempt, _connect, writeToSendSocket, hok, if_true,
      mapFind_mapSet_self]
    show (mapKeys (mapSet (mapSet st.sendSockets n _) n _)).Nodup
    by_cases hmem : n ∈ mapKeys st.sendSockets
    · rw [mapKeys_mapSet_of_mem _ _ _ (by rwa [mapKeys_mapSet_of_mem _ _ _ hmem]),
        mapKeys_mapSet_of_mem _ _ _ hmem]
      exact h
    · have h1 := mapKeys_mapSet_of_not_mem st.sendSockets n
        { sid := st.nextSid, localAddress := st.host, remoteAddress := n.host,
          writes := [], destroyed := false, errorSilenced := false, writeError := false } hmem
      rw [mapKeys_mapSet_of_mem _ _ _ (by rw [h1]; simp), h1]
      refine List.Nodup.append h (List.nodup_singleton n) ?_
      intro z hz hz1
      rw [List.mem_singleton] at hz1
      subst hz1
      exact hmem hz
  · simpa [reconnectAttempt, _connect, hok] using h

theorem reconnectAttempt_set_nodup {Data : Type} (ok : TcpNeighbor → Bool)
    (st : TransportState Data) (n : TcpNeighbor)
    (h : st.neighborsToReconnect.Nodup) :
    (reconnectAttempt ok st n).neighborsToReconnect.Nodup := by
  rw [reconnectAttempt_set]
  by_cases hok : ok n
  · simp only [hok, if_true]
    exact setDelete_nodup h
  · simpa [hok]

theorem tickFold_find_other {Data : Type} (ok : TcpNeighbor → Bool) (l : List TcpNeighbor) :
    ∀ (st : TransportState Data) (x : TcpNeighbor), ¬(x ∈ l ∧ ok x = true) →
    mapFind (l.foldl (reconnectAttempt ok) st).sendSockets x = mapFind st.sendSockets x := by
  induction l with
  | nil => intro st x _; rfl
  | cons a t ih =>
    intro st x hx
    rw [List.foldl_cons,
      ih (reconnectAttempt ok st a) x (fun hh => hx ⟨List.mem_cons_of_mem a hh.1, hh.2⟩),
      reconnectAttempt_find_other ok st a x
        (fun hh => hx ⟨by rw [hh.1]; exact List.mem_cons_self a t, by rw [hh.1]; exact hh.2⟩)]

theorem tickFold_find_origin {Data : Type} (ok : TcpNeighbor → Bool) (l : List TcpNeighbor) :
    ∀ (st : TransportState Data) (x : TcpNeighbor),
    (mapFind (l.foldl (reconnectAttempt ok) st).sendSockets x).isSome = true →
    (mapFind st.sendSockets x).isSome = true ∨ x ∈ l := by
  induction l with
  | nil => intro st x h; exact Or.inl h
  | cons a t ih =>
    intro st x h
    rw [List.foldl_cons] at h
    rcases ih (reconnectAttempt ok st a) x h with h1 | h1
    · rcases reconnectAttempt_find_origin ok st a x h1 with h2 | rfl
      · exact Or.inl h2
      · exact Or.inr (List.mem_cons_self x t)
    · exact Or.inr (List.mem_cons_of_mem a h1)

theorem tickFold_keys_nodup {Data : Type} (ok : TcpNeighbor → Bool) (l : List TcpNeighbor) :
    ∀ st : TransportState Data, (mapKeys st.sendSockets).Nodup →
    (mapKeys ((l.foldl (reconnectAttempt ok) st)).sendSockets).Nodup := by
  induction l with
  | nil => intro st h; exact h
  | cons a t ih =>
    intro st h
    rw [List.foldl_cons]
    exact ih (reconnectAttempt ok st a) (reconnectAttempt_keys_nodup ok st a h)

theorem tickFold_set_nodup {Data : Type} (ok : TcpNeighbor → Bool) (l : List TcpNeighbor) :
    ∀ st : TransportState Data, st.neighborsToReconnect.Nodup →
    ((l.foldl (reconnectAttempt ok) st)).neighborsToReconnect.Nodup := by
  induction l with
  | nil => intro st h; exact h
  | cons a t ih =>
    intro st h
    rw [List.foldl_cons]
    exact ih (reconnectAttempt ok st a) (reconnectAttempt_set_nodup ok st a h)

theorem mapFind_eq_none_iff_not_mem {α : Type} (m : List (TcpNeighbor × α)) (k : TcpNeighbor) :
    mapFind m k = none ↔ k ∉ mapKeys m := by
  constructor
  · intro h hmem
    induction m with
    | nil => cases hmem
    | cons e rest ih =>
      obtain ⟨k1, v1⟩ := e
      rw [mapKeys_cons, List.mem_cons] at hmem
      simp only [mapFind] at h
      rcases hmem with rfl | hmem
      · simp at h
      · by_cases h1 : k1 = k
        · simp [h1] at h
        · simp only [h1, if_false] at h
          exact ih h hmem
  · exact mapFind_eq_none_of_not_mem_keys m k

theorem inv_init {Data : Type} (host : String) (port : Nat) (packer : Packer Data)
    (ri : Nat) (ru : Bool) : StateInv (initState Data host port packer ri ru) := by
  refine ⟨List.nodup_nil, List.nodup_nil, List.nodup_nil, ?_, ?_, ?_, ?_, rfl⟩
  · intro n hn
    cases hn
  · intro n hn
    simp [initState, mapFind] at hn
  · intro n hn
    cases hn
  · intro _
    exact ⟨rfl, rfl⟩

theorem inv_receiveClose {Data : Type} (st : TransportState Data) (n : TcpNeighbor)
    (sock : ModelSocket) (hinv : StateInv st) : StateInv (receiveSocketClose st n sock) := by
  obtain ⟨h1, h2, h3, h4, h5, h6, h7, h8⟩ := hinv
  exact ⟨h1, h2, h3, h4, h5, h6, h7, h8⟩

theorem inv_sendClose {Data : Type} (st : TransportState Data) (n : TcpNeighbor)
    (sock : ModelSocket) (hinv : StateInv st) : StateInv (sendSocketClose st n sock) := by
  obtain ⟨h1, h2, h3, h4, h5, h6, h7, h8⟩ := hinv
  refine ⟨h1, h2, mapKeys_mapDelete_nodup _ n h3, h4, ?_, ?_, ?_, h8⟩
  · intro x hx
    have hx1 : (mapFind (mapDelete st.sendSockets n) x).isSome = true := hx
    by_cases hxn : x = n
    · subst hxn
      rw [mapFind_mapDelete_self] at hx1
      simp at hx1
    · rw [mapFind_mapDelete_ne _ n x hxn] at hx1
      exact h5 x hx1
  · intro x hx
    show mapFind (mapDelete st.sendSockets n) x = none
    by_cases hxn : x = n
    · subst hxn
      exact mapFind_mapDelete_self _ _
    · rw [mapFind_mapDelete_ne _ n x hxn]
      exact h6 x hx
  · intro hfalse
    obtain ⟨hs, hr⟩ := h7 hfalse
    refine ⟨?_, hr⟩
    show mapDelete st.sendSockets n = []
    rw [hs]
    rfl

theorem inv_sendOk {Data : Type} (st : TransportState Data) (d : Data) (n : TcpNeighbor)
    (st1 : TransportState Data) (hinv : StateInv st)
    (heq : send st d n = Except.ok st1) : StateInv st1 := by
  obtain ⟨h1, h2, h3, h4, h5, h6, h7, h8⟩ := hinv
  by_cases hperm : n.gatewayCanSendTo = false
  · simp [send, hperm] at heq
  · rcases hsc : mapFind st.sendSockets n with _ | sock
    · simp [send, hperm, hsc] at heq
    · simp only [send, hperm, Bool.true_eq_false, if_false, hsc, Except.ok.injEq] at heq
      subst heq
      rw [writeToSendSocket_of_find st n sock _ hsc]
      have hmemk : n ∈ mapKeys st.sendSockets :=
        mem_keys_of_mapFind_isSome _ n (by rw [hsc]; rfl)
      have hkeys : mapKeys (mapSet st.sendSockets n
          (socketWrite sock (st.packer.pack d))) = mapKeys st.sendSockets :=
        mapKeys_mapSet_of_mem _ _ _ hmemk
      refine ⟨h1, h2, ?_, h4, ?_, ?_, ?_, h8⟩
      · show (mapKeys (mapSet st.sendSockets n _)).Nodup
        rw [hkeys]
        exact h3
      · intro x hx
        have hx1 : (mapFind (mapSet st.sendSockets n
            (socketWrite sock (st.packer.pack d))) x).isSome = true := hx
        by_cases hxn : x = n
        · subst hxn
          exact h5 x (by rw [hsc]; rfl)
        · rw [mapFind_mapSet_ne _ n x _ hxn] at hx1
          exact h5 x hx1
      · intro x hx
        have hxn : x ≠ n := by
          intro hh
          subst hh
          rw [h6 x hx] at hsc
          cases hsc
        show mapFind (mapSet st.sendSockets n _) x = none
        rw [mapFind_mapSet_ne _ n x _ hxn]
        exact h6 x hx
      · intro hfalse
        obtain ⟨hs, _⟩ := h7 hfalse
        rw [hs] at hsc
        simp [mapFind] at hsc

theorem inv_addOk {Data : Type} (st : TransportState Data) (n : TcpNeighbor)
    (out : ConnectOutcome) (st1 : TransportState Data) (hinv : StateInv st)
    (heq : addNeighbor st n out = Except.ok st1) : StateInv st1 := by
  obtain ⟨h1, h2, h3, h4, h5, h6, h7, h8⟩ := hinv
  by_cases hmem : n ∈ st.neighbors
  · simp [addNeighbor, hmem] at heq
  · have hnone : mapFind st.sendSockets n = none := by
      cases hfind : mapFind st.sendSockets n with
      | none => rfl
      | some v => exact absurd (h5 n (by rw [hfind]; rfl)) hmem
    cases hrun : st.isRunning with
    | false =>
      simp only [addNeighbor, hmem, if_false, hrun, Bool.false_eq_true,
        Except.ok.injEq] at heq
      subst heq
      refine ⟨setAdd_nodup h1, h2, h3, ?_, ?_, h6, ?_, h8.trans hrun⟩
      · intro x hx
        exact mem_setAdd.mpr (Or.inl (h4 x hx))
      · intro x hx
        exact mem_setAdd.mpr (Or.inl (h5 x hx))
      · intro _
        exact h7 hrun
    | true =>
      cases out with
      | connected =>
        simp only [addNeighbor, hmem, if_false, hrun, if_true, _connect,
          Except.ok.injEq] at heq
        subst heq
        rw [writeToSendSocket_of_find _ n _ _ (mapFind_mapSet_self _ n _)]
        have hnk : n ∉ mapKeys st.sendSockets := (mapFind_eq_none_iff_not_mem _ _).mp hnone
        refine ⟨setAdd_nodup h1, h2, ?_, ?_, ?_, ?_, ?_, h8.trans hrun⟩
        · show (mapKeys (mapSet (mapSet st.sendSockets n _) n _)).Nodup
          have k1 := mapKeys_mapSet_of_not_mem st.sendSockets n
            { sid := st.nextSid, localAddress := st.host, remoteAddress := n.host,
              writes := [], destroyed := false, errorSilenced := false,
              writeError := false } hnk
          rw [mapKeys_mapSet_of_mem _ _ _ (by rw [k1]; simp), k1]
          refine List.Nodup.append h3 (List.nodup_singleton n) ?_
          intro z hz hz1
          rw [List.mem_singleton] at hz1
          subst hz1
          exact hnk hz
        · intro x hx
          exact mem_setAdd.mpr (Or.inl (h4 x hx))
        · intro x hx
          have hx1 : (mapFind (mapSet (mapSet st.sendSockets n
              { sid := st.nextSid, localAddress := st.host, remoteAddress := n.host,
                writes := [], destroyed := false, errorSilenced := false,
                writeError := false }) n _) x).isSome = true := hx
          by_cases hxn : x = n
          · subst hxn
            exact mem_setAdd.mpr (Or.inr rfl)
          · rw [mapFind_mapSet_ne _ n x _ hxn, mapFind_mapSet_ne _ n x _ hxn] at hx1
            exact mem_setAdd.mpr (Or.inl (h5 x hx1))
        · intro x hx
          have hxn : x ≠ n := by
            intro hh
            subst hh
            exact hmem (h4 x hx)
          show mapFind (mapSet (mapSet st.sendSockets n _) n _) x = none
          rw [mapFind_mapSet_ne _ n x _ hxn, mapFind_mapSet_ne _ n x _ hxn]
          exact h6 x hx
        · intro hfalse
          exact Bool.noConfusion hfalse
      | closedBeforeConnect =>
        simp only [addNeighbor, hmem, if_false, hrun, if_true, _connect,
          Except.ok.injEq] at heq
        subst heq
        refine ⟨setAdd_nodup h1, setAdd_nodup h2, h3, ?_, ?_, ?_, ?_, h8.trans hrun⟩
        · intro x hx
          rcases mem_setAdd.mp hx with hx1 | rfl
          · exact mem_setAdd.mpr (Or.inl (h4 x hx1))
          · exact mem_setAdd.mpr (Or.inr rfl)
        · intro x hx
          exact mem_setAdd.mpr (Or.inl (h5 x hx))
        · intro x hx
          rcases mem_setAdd.mp hx with hx1 | rfl
          · exact h6 x hx1
          · exact hnone
        · intro hfalse
          exact Bool.noConfusion hfalse
      | errored =>
        simp only [addNeighbor, hmem, if_false, hrun, if_true, _connect,
          Except.ok.injEq] at heq
        subst heq
        refine ⟨setAdd_nodup h1, setAdd_nodup h2, h3, ?_, ?_, ?_, ?_, h8.trans hrun⟩
        · intro x hx
          rcases mem_setAdd.mp hx with hx1 | rfl
          · exact mem_setAdd.mpr (Or.inl (h4 x hx1))
          · exact mem_setAdd.mpr (Or.inr rfl)
        · intro x hx
          exact mem_setAdd.mpr (Or.inl (h5 x hx))
        · intro x hx
          rcases mem_setAdd.mp hx with hx1 | rfl
          · exact h6 x hx1
          · exact hnone
        · intro hfalse
          exact Bool.noConfusion hfalse

theorem inv_removeOk {Data : Type} (st : TransportState Data) (n : TcpNeighbor)
    (st1 : TransportState Data) (hinv : StateInv st)
    (heq : removeNeighbor st n = Except.ok st1) : StateInv st1 := by
  obtain ⟨h1, h2, h3, h4, h5, h6, h7, h8⟩ := hinv
  by_cases hmem : n ∈ st.neighbors
  · rcases hrc : mapFind st.receiveSockets n with _ | e <;>
      rcases hsc : mapFind st.sendSockets n with _ | sock
    · simp only [removeNeighbor, hmem, if_true, hrc, hsc, _disconnect, destroySocket,
        Except.ok.injEq] at heq
      subst heq
      refine ⟨setDelete_nodup h1, setDelete_nodup h2, h3, ?_, ?_, ?_, ?_, h8⟩
      · intro x hx
        obtain ⟨hx1, hxn⟩ := mem_setDelete.mp hx
        exact mem_setDelete.mpr ⟨h4 x hx1, hxn⟩
      · intro x hx
        have hx1 : (mapFind st.sendSockets x).isSome = true := hx
        have hxn : x ≠ n := by
          intro hh
          subst hh
          rw [hsc] at hx1
          simp at hx1
        exact mem_setDelete.mpr ⟨h5 x hx1, hxn⟩
      · intro x hx
        obtain ⟨hx1, _⟩ := mem_setDelete.mp hx
        exact h6 x hx1
      · intro hfalse
        obtain ⟨hs, hr⟩ := h7 hfalse
        refine ⟨hs, ?_⟩
        show setDelete st.neighborsToReconnect n = []
        rw [hr]
        rfl
    · simp only [removeNeighbor, hmem, if_true, hrc, hsc, _disconnect, destroySocket,
        Except.ok.injEq] at heq
      subst heq
      refine ⟨setDelete_nodup h1, setDelete_nodup h2,
        mapKeys_mapDelete_nodup _ n h3, ?_, ?_, ?_, ?_, h8⟩
      · intro x hx
        obtain ⟨hx1, hxn⟩ := mem_setDelete.mp hx
        exact mem_setDelete.mpr ⟨h4 x hx1, hxn⟩
      · intro x hx
        have hx1 : (mapFind (mapDelete st.sendSockets n) x).isSome = true := hx
        by_cases hxn : x = n
        · subst hxn
          rw [mapFind_mapDelete_self] at hx1
          simp at hx1
        · rw [mapFind_mapDelete_ne _ n x hxn] at hx1
          exact mem_setDelete.mpr ⟨h5 x hx1, hxn⟩
      · intro x hx
        obtain ⟨hx1, hxn⟩ := mem_setDelete.mp hx
        show mapFind (mapDelete st.sendSockets n) x = none
        rw [mapFind_mapDelete_ne _ n x hxn]
        exact h6 x hx1
      · intro hfalse
        obtain ⟨hs, hr⟩ := h7 hfalse
        constructor
        · show mapDelete st.sendSockets n = []
          rw [hs]
          rfl
        · show setDelete st.neighborsToReconnect n = []
          rw [hr]
          rfl
    · simp only [removeNeighbor, hmem, if_true, hrc, hsc, _disconnect, destroySocket,
        Except.ok.injEq] at heq
      subst heq
      refine ⟨setDelete_nodup h1, setDelete_nodup h2, h3, ?_, ?_, ?_, ?_, h8⟩
      · intro x hx
        obtain ⟨hx1, hxn⟩ := mem_setDelete.mp hx
        exact mem_setDelete.mpr ⟨h4 x hx1, hxn⟩
      · intro x hx
        have hx1 : (mapFind st.sendSockets x).isSome = true := hx
        have hxn : x ≠ n := by
          intro hh
          subst hh
          rw [hsc] at hx1
          simp at hx1
        exact mem_setDelete.mpr ⟨h5 x hx1, hxn⟩
      · intro x hx
        obtain ⟨hx1, _⟩ := mem_setDelete.mp hx
        exact h6 x hx1
      · intro hfalse
        obtain ⟨hs, hr⟩ := h7 hfalse
        refine ⟨hs, ?_⟩
        show setDelete st.neighborsToReconnect n = []
        rw [hr]
        rfl
    · simp only [removeNeighbor, hmem, if_true, hrc, hsc, _disconnect, destroySocket,
        Except.ok.injEq] at heq
      subst heq
      refine ⟨setDelete_nodup h1, setDelete_nodup h2,
        mapKeys_mapDelete_nodup _ n h3, ?_, ?_, ?_, ?_, h8⟩
      · intro x hx
        obtain ⟨hx1, hxn⟩ := mem_setDelete.mp hx
        exact mem_setDelete.mpr ⟨h4 x hx1, hxn⟩
      · intro x hx
        have hx1 : (mapFind (mapDelete st.sendSockets n) x).isSome = true := hx
        by_cases hxn : x = n
        · subst hxn
          rw [mapFind_mapDelete_self] at hx1
          simp at hx1
        · rw [mapFind_mapDelete_ne _ n x hxn] at hx1
          exact mem_setDelete.mpr ⟨h5 x hx1, hxn⟩
      · intro x hx
        obtain ⟨hx1, hxn⟩ := mem_setDelete.mp hx
        show mapFind (mapDelete st.sendSockets n) x = none
        rw [mapFind_mapDelete_ne _ n x hxn]
        exact h6 x hx1
      · intro hfalse
        obtain ⟨hs, hr⟩ := h7 hfalse
        constructor
        · show mapDelete st.sendSockets n = []
          rw [hs]
          rfl
        · show setDelete st.neighborsToReconnect n = []
          rw [hr]
          rfl
  · simp [removeNeighbor, hmem] at heq

theorem inv_run_core {Data : Type} (st : TransportState Data) (ok : TcpNeighbor → Bool)
    (h1 : st.neighbors.Nodup) (h2 : st.neighborsToReconnect.Nodup)
    (h3 : (mapKeys st.sendSockets).Nodup)
    (hs0 : st.sendSockets = []) (hr0 : st.neighborsToReconnect = []) :
    StateInv { st.neighbors.foldl (runConnectStep ok)
        { st with serverListening := true, serverListenersAttached := true } with
      reconnectionTimer := some st.reconnectionInterval, isRunning := true } := by
  have hfields := runFold_fields ok st.neighbors
    { st with serverListening := true, serverListenersAttached := true }
  refine ⟨?_, ?_, ?_, ?_, ?_, ?_, ?_, rfl⟩
  · show (st.neighbors.foldl (runConnectStep ok)
      { st with serverListening := true, serverListenersAttached := true }).neighbors.Nodup
    rw [hfields.1]
    exact h1
  · show (st.neighbors.foldl (runConnectStep ok)
      { st with serverListening := true, serverListenersAttached := true }).neighborsToReconnect.Nodup
    exact runFold_set_nodup ok st.neighbors _ h2
  · show (mapKeys (st.neighbors.foldl (runConnectStep ok)
      { st with serverListening := true, serverListenersAttached := true }).sendSockets).Nodup
    exact runFold_keys_nodup ok st.neighbors _ h3
  · intro x hx
    have hx0 : x ∈ (st.neighbors.foldl (runConnectStep ok)
        { st with serverListening := true, serverListenersAttached := true }).neighborsToReconnect := hx
    rcases (runFold_set_mem ok st.neighbors _ x).mp hx0 with hin | ⟨hxn, _⟩
    · have hin2 : x ∈ st.neighborsToReconnect := hin
      rw [hr0] at hin2
      cases hin2
    · show x ∈ (st.neighbors.foldl (runConnectStep ok)
        { st with serverListening := true, serverListenersAttached := true }).neighbors
      rw [hfields.1]
      exact hxn
  · intro x hx
    have hx0 : (mapFind (st.neighbors.foldl (runConnectStep ok)
        { st with serverListening := true, serverListenersAttached := true }).sendSockets x).isSome = true := hx
    rcases runFold_find_origin ok st.neighbors _ x hx0 with hin | hin
    · have hin2 : (mapFind st.sendSockets x).isSome = true := hin
      rw [hs0] at hin2
      simp [mapFind] at hin2
    · show x ∈ (st.neighbors.foldl (runConnectStep ok)
        { st with serverListening := true, serverListenersAttached := true }).neighbors
      rw [hfields.1]
      exact hin
  · intro x hx
    have hx0 : x ∈ (st.neighbors.foldl (runConnectStep ok)
        { st with serverListening := true, serverListenersAttached := true }).neighborsToReconnect := hx
    rcases (runFold_set_mem ok st.neighbors _ x).mp hx0 with hin | ⟨_, hxf⟩
    · have hin2 : x ∈ st.neighborsToReconnect := hin
      rw [hr0] at hin2
      cases hin2
    · show mapFind (st.neighbors.foldl (runConnectStep ok)
        { st with serverListening := true, serverListenersAttached := true }).sendSockets x = none
      rw [runFold_find_other ok st.neighbors _ x (fun hh => Bool.noConfusion (hxf ▸ hh.2))]
      show mapFind st.sendSockets x = none
      rw [hs0]
      rfl
  · intro hfalse
    exact Bool.noConfusion hfalse

theorem inv_runOk {Data : Type} (st : TransportState Data) (ok : TcpNeighbor → Bool)
    (st1 : TransportState Data) (hinv : StateInv st)
    (heq : run st true ok = Except.ok st1) : StateInv st1 := by
  obtain ⟨h1, h2, h3, h4, h5, h6, h7, h8⟩ := hinv
  by_cases hrun : st.isRunning
  · simp [run, hrun] at heq
  · have hrun0 : st.isRunning = false := by simpa using hrun
    obtain ⟨hs0, hr0⟩ := h7 hrun0
    unfold run at heq
    rw [if_neg hrun, if_neg (show ¬(true = false) from fun h => Bool.noConfusion h)] at heq
    injection heq with heq2
    subst heq2
    exact inv_run_core st ok h1 h2 h3 hs0 hr0

theorem inv_shutdownFailed {Data : Type} (st : TransportState Data) (hinv : StateInv st)
    (hrun : st.isRunning = true) : StateInv (shutdownCore st) := by
  obtain ⟨h1, h2, h3, h4, h5, h6, h7, h8⟩ := hinv
  have hclr := disconnect_fold_clears st.sendSockets
    { st with serverListenersAttached := false } rfl h3
  have hempty : (shutdownCore st).sendSockets = [] := hclr.1
  have hneigh : (shutdownCore st).neighbors = st.neighbors :=
    (foldl_disconnect_fields (mapKeys st.sendSockets)
      { st with serverListenersAttached := false }).1
  have hset : (shutdownCore st).neighborsToReconnect = st.neighborsToReconnect :=
    (foldl_disconnect_fields (mapKeys st.sendSockets)
      { st with serverListenersAttached := false }).2.1
  have hrunning : (shutdownCore st).isRunning = st.isRunning :=
    (foldl_disconnect_fields (mapKeys st.sendSockets)
      { st with serverListenersAttached := false }).2.2.1
  have htimer : (shutdownCore st).reconnectionTimer = st.reconnectionTimer :=
    (foldl_disconnect_fields (mapKeys st.sendSockets)
      { st with serverListenersAttached := false }).2.2.2.1
  refine ⟨?_, ?_, ?_, ?_, ?_, ?_, ?_, ?_⟩
  · rw [hneigh]
    exact h1
  · rw [hset]
    exact h2
  · rw [hempty]
    exact List.nodup_nil
  · intro x hx
    rw [hset] at hx
    rw [hneigh]
    exact h4 x hx
  · intro x hx
    rw [hempty] at hx
    simp [mapFind] at hx
  · intro x _
    rw [hempty]
    rfl
  · intro hfalse
    rw [hrunning, hrun] at hfalse
    cases hfalse
  · rw [htimer, hrunning, hrun, h8, hrun]

theorem inv_shutdownOk {Data : Type} (st : TransportState Data)
    (st1 : TransportState Data) (hinv : StateInv st)
    (heq : shutdown st true = Except.ok st1) : StateInv st1 := by
  have hinv0 := hinv
  obtain ⟨h1, h2, h3, h4, h5, h6, h7, h8⟩ := hinv
  by_cases hrun : st.isRunning = false
  · simp [shutdown, hrun] at heq
  · unfold shutdown at heq
    rw [if_neg hrun, if_pos rfl] at heq
    injection heq with heq2
    subst heq2
    have hcore := inv_shutdownFailed st hinv0 (by
      cases hb : st.isRunning with
      | false => exact absurd hb hrun
      | true => rfl)
    obtain ⟨g1, g2, g3, g4, g5, g6, g7, g8⟩ := hcore
    refine ⟨g1, List.nodup_nil, g3, ?_, ?_, ?_, ?_, rfl⟩
    · intro x hx
      cases hx
    · intro x hx
      exact g5 x hx
    · intro x hx
      cases hx
    · intro _
      refine ⟨?_, rfl⟩
      have hclr := disconnect_fold_clears st.sendSockets
        { st with serverListenersAttached := false } rfl h3
      exact hclr.1

theorem inv_tick {Data : Type} (st : TransportState Data) (ok : TcpNeighbor → Bool)
    (hinv : StateInv st) (htimer : st.reconnectionTimer.isSome = true) :
    StateInv (reconnectTick st ok) := by
  obtain ⟨h1, h2, h3, h4, h5, h6, h7, h8⟩ := hinv
  have hrun : st.isRunning = true := by
    rw [← h8]
    exact htimer
  have hfields := tickFold_fields ok st.neighborsToReconnect st
  refine ⟨?_, ?_, ?_, ?_, ?_, ?_, ?_, ?_⟩
  · show (st.neighborsToReconnect.foldl (reconnectAttempt ok) st).neighbors.Nodup
    rw [hfields.2.2.1]
    exact h1
  · show (st.neighborsToReconnect.foldl (reconnectAttempt ok) st).neighborsToReconnect.Nodup
    exact tickFold_set_nodup ok st.neighborsToReconnect st h2
  · show (mapKeys (st.neighborsToReconnect.foldl
      (reconnectAttempt ok) st).sendSockets).Nodup
    exact tickFold_keys_nodup ok st.neighborsToReconnect st h3
  · intro x hx
    have hx0 : x ∈ (st.neighborsToReconnect.foldl
        (reconnectAttempt ok) st).neighborsToReconnect := hx
    obtain ⟨hmem, _⟩ := (tickFold_set_mem ok st.neighborsToReconnect st x).mp hx0
    show x ∈ (st.neighborsToReconnect.foldl (reconnectAttempt ok) st).neighbors
    rw [hfields.2.2.1]
    exact h4 x hmem
  · intro x hx
    have hx0 : (mapFind (st.neighborsToReconnect.foldl
        (reconnectAttempt ok) st).sendSockets x).isSome = true := hx
    show x ∈ (st.neighborsToReconnect.foldl (reconnectAttempt ok) st).neighbors
    rw [hfields.2.2.1]
    rcases tickFold_find_origin ok st.neighborsToReconnect st x hx0 with hin | hin
    · exact h5 x hin
    · exact h4 x hin
  · intro x hx
    have hx0 : x ∈ (st.neighborsToReconnect.foldl
        (reconnectAttempt ok) st).neighborsToReconnect := hx
    obtain ⟨hmem, hrest⟩ := (tickFold_set_mem ok st.neighborsToReconnect st x).mp hx0
    have hxf : ok x = false := by
      rcases hrest with hno | hf
      · exact absurd hmem hno
      · exact hf
    show mapFind (st.neighborsToReconnect.foldl
      (reconnectAttempt ok) st).sendSockets x = none
    rw [tickFold_find_other ok st.neighborsToReconnect st x
      (fun hh => Bool.noConfusion (hxf ▸ hh.2))]
    exact h6 x hmem
  · intro hfalse
    have hf0 : (st.neighborsToReconnect.foldl
        (reconnectAttempt ok) st).isRunning = false := hfalse
    rw [hfields.2.2.2.1, hrun] at hf0
    cases hf0
  · show (some st.reconnectionInterval).isSome =
      (st.neighborsToReconnect.foldl (reconnectAttempt ok) st).isRunning
    rw [hfields.2.2.2.1, hrun]
    rfl

theorem reachable_StateInv {Data : Type} (st : TransportState Data)
    (h : Reachable Data st) : StateInv st := by
  induction h with
  | init host port packer ri ru => exact inv_init host port packer ri ru
  | addOk st n out st1 _ heq ih => exact inv_addOk st n out st1 ih heq
  | removeOk st n st1 _ heq ih => exact inv_removeOk st n st1 ih heq
  | runOk st ok st1 _ heq ih => exact inv_runOk st ok st1 ih heq
  | shutdownOk st st1 _ heq ih => exact inv_shutdownOk st st1 ih heq
  | shutdownFailed st _ hrun ih => exact inv_shutdownFailed st ih hrun
  | tick st ok _ htimer ih => exact inv_tick st ok ih htimer
  | sendOk st d n st1 _ heq ih => exact inv_sendOk st d n st1 ih heq
  | sendClose st n sock _ ih => exact inv_sendClose st n sock ih
  | receiveClose st n sock _ ih => exact inv_receiveClose st n sock ih

/-- C8: in every state reachable through the public operations (addNeighbor,
removeNeighbor, run, shutdown — resolved or rejected by the server close —
reconnection ticks, send) and the socket close handlers, every neighbor in
neighborsToReconnect is in the neighbor table and has no entry in the
send-socket map. -/
theorem needsReconnect_subset_no_socket {Data : Type} (st : TransportState Data)
    (h : Reachable Data st) :
    ∀ n, n ∈ st.neighborsToReconnect →
      n ∈ st.neighbors ∧ mapFind st.sendSockets n = none := by
  intro n hn
  obtain ⟨_, _, _, h4, _, h6, _, _⟩ := reachable_StateInv st h
  exact ⟨h4 n hn, h6 n hn⟩

/-- C8 witness: the invariant read off at the state reached by running a
fresh transport and adding a neighbor whose initial connect fails. -/
theorem needsReconnect_subset_no_socket_witness :
    nbrW ∈ stNeedsRec.neighbors ∧ mapFind stNeedsRec.sendSockets nbrW = none :=
  needsReconnect_subset_no_socket stNeedsRec
    (Reachable.addOk stRunning nbrW ConnectOutcome.errored stNeedsRec
      (Reachable.runOk stInit (fun _ => false) stRunning
        (Reachable.init "0.0.0.0" 4000 natPacker 50 false) rfl)
      rfl)
    nbrW (by decide)

end TcpModel
